import Mathlib

/-!
Verification development for the WX849 channel adapter
(`src/channel/wx849/wx849_channel.py`), centred on the inbound message
normalizer: `_process_message`, the per-type processors it dispatches to
(`_process_text_message`, `_process_image_message`, `_process_voice_message`,
`_process_video_message`, `_process_emoji_message`, `_process_xml_message`,
`_process_system_message`), and the `_check` deduplication wrapper.

The embedding is shallow: Python strings are Lean `String`s (manipulated via
their character lists so that everything reduces in the kernel), the raw wire
mapping is an association list of dynamically typed values, XML parsing
(`xml.etree.ElementTree.fromstring`) is modelled by an executable parser for
the element/attribute/text fragment actually exchanged (no entities, comments
or processing-instruction bodies; a prolog is skipped), and the two
`re.search` patterns used by the channel are modelled by equivalent executable
scanners.  Code that can raise is typed `Except String _`, and every
`try/except` of the source is translated to an explicit `match` on such a
value, so that an extraction step the source left unguarded would surface as
an `.error` escaping the normalizer.
-/

set_option maxRecDepth 20000

namespace WX849

/-- Dynamically-typed value of the raw wire mapping (the subset of Python
values the channel actually probes: strings, lists of strings, integers). -/
inductive RVal where
  | s (v : String)
  | l (v : List String)
  | i (n : Int)
deriving DecidableEq, Repr

/-- Python truthiness for the values of `RVal`. -/
def rvalTruthy : RVal → Bool
  | .s v => v ≠ ""
  | .l v => v ≠ []
  | .i n => n ≠ 0

/-- Single-quote character, used when rendering Python list values. -/
def sq : String := String.singleton (Char.ofNat 39)

/-- Model of Python `str(...)` on an `RVal` (for lists an approximation of the
list repr; only its non-emptiness is ever observable in the channel). -/
def pyStr : RVal → String
  | .s v => v
  | .l v => "[" ++ String.intercalate ", " (v.map (fun x => sq ++ x ++ sq)) ++ "]"
  | .i n => toString n

/-- Classified context type (`ContextType`, including the members the channel
adds dynamically at import time). -/
inductive CType where
  | TEXT | IMAGE | VOICE | VIDEO | XML | LINK | FILE | MINIAPP
  | PAT | QUOTE | SYSTEM | UNKNOWN
deriving DecidableEq, Repr

/-- Pat-message side payload (`cmsg.pat_info`); `none` in a field models
Python `None` (an element present without text), `some ""` the default used
when the sub-element is absent. -/
structure PatInfo where
  patter : Option String
  patted : Option String
  suffix : Option String
deriving DecidableEq, Repr

/-- Canonical message record: the attributes of `WX849Message` that the
normalizer reads and writes.  A Python `None` string field is collapsed to
`""` (the two are indistinguishable to every test the channel performs on
these fields). -/
structure CMsg where
  msg : List (String × RVal)
  msg_id : String
  create_time : Int
  content : String
  msg_type : RVal
  is_group : Bool
  from_user_id : String
  sender_wxid : String
  self_display_name : String
  at_list : List String
  ctype : CType
  other_user_id : String
  actual_user_id : String
  actual_user_nickname : String
  pat_info : Option PatInfo
  image_info : Option (List (String × Option String))
  voice_info : Option (List (String × Option String))
deriving DecidableEq, Repr

/-- Channel-side configuration read by the normalizer: the bot's name
(`self.name`), its wxid (`self.wxid`), and the group-member display name the
`wx849_rooms.json` cache lookup would produce (the file read is external
input, modelled as an optional value; `none` means no truthy cache hit). -/
structure Env where
  name : String
  wxid : String
  roomsCacheName : Option String
deriving DecidableEq, Repr

/-- Modelled from the spec: `WX849Message` (`wx849_message.py`, not under
`src/`) builds the raw record handed to the normalizer; per the spec's
canonical-record shape the extraction outputs (sender id, mention list,
side payloads) start out empty and the group flag comes from the listener. -/
def initialMsg (msg : List (String × RVal)) (msgId : String) (createTime : Int)
    (content : String) (msgType : RVal) (isGroup : Bool) (fromUser : String) : CMsg :=
  { msg := msg, msg_id := msgId, create_time := createTime, content := content,
    msg_type := msgType, is_group := isGroup, from_user_id := fromUser,
    sender_wxid := "", self_display_name := "", at_list := [],
    ctype := .UNKNOWN, other_user_id := "", actual_user_id := "",
    actual_user_nickname := "", pat_info := none, image_info := none,
    voice_info := none }

/-- Lookup in the raw mapping (`key in cmsg.msg` / `cmsg.msg[key]`). -/
def msgGet (m : List (String × RVal)) (k : String) : Option RVal :=
  (m.find? (fun p => p.1 = k)).map (·.2)

/- ### Character-level string utilities (models of the Python str methods) -/

/-- Python `\s` for the ASCII range (enough for the wire formats handled). -/
def isWsCh (c : Char) : Bool :=
  c == ' ' || c == '\t' || c == '\n' || c == '\r' ||
  c == Char.ofNat 11 || c == Char.ofNat 12

/-- Is `pre` a prefix of `cs`. -/
def isPrefixCh : List Char → List Char → Bool
  | [], _ => true
  | _ :: _, [] => false
  | p :: ps, c :: cs => p == c && isPrefixCh ps cs

/-- Python `s.startswith(p)`. -/
def strStarts (s p : String) : Bool := isPrefixCh p.data s.data

/-- Python `s.endswith(p)`. -/
def strEnds (s p : String) : Bool := isPrefixCh p.data.reverse s.data.reverse

/-- Find the first occurrence of `sep` (non-empty): returns the characters
before it (reversed accumulator passed along) and those after it. -/
def splitOnceAux (sep : List Char) : Nat → List Char → List Char →
    Option (List Char × List Char)
  | 0, _, _ => none
  | _ + 1, [], _ => none
  | n + 1, c :: rest, acc =>
    if isPrefixCh sep (c :: rest) then some (acc.reverse, (c :: rest).drop sep.length)
    else splitOnceAux sep n rest (c :: acc)

/-- Python `s.split(sep, 1)` for non-empty `sep`: `some (before, after)` when
`sep` occurs, `none` when it does not. -/
def splitOnce (s sep : String) : Option (String × String) :=
  (splitOnceAux sep.data (s.data.length + 1) s.data []).map
    (fun p => (String.mk p.1, String.mk p.2))

/-- Python `sub in s` (substring containment; the empty needle matches). -/
def strContains (s sub : String) : Bool :=
  sub.data = [] || (splitOnceAux sub.data (s.data.length + 1) s.data []).isSome

/-- Python `s.split(sep)` for non-empty `sep` (all fields, empties kept). -/
def splitFullAux (sep : List Char) : Nat → List Char → List Char →
    List (List Char)
  | 0, cs, acc => [acc.reverse ++ cs]
  | _ + 1, [], acc => [acc.reverse]
  | n + 1, c :: rest, acc =>
    if isPrefixCh sep (c :: rest) then
      acc.reverse :: splitFullAux sep n ((c :: rest).drop sep.length) []
    else splitFullAux sep n rest (c :: acc)

/-- Python `s.split(sep)` for non-empty `sep`. -/
def splitFull (s sep : String) : List String :=
  (splitFullAux sep.data (s.data.length + 1) s.data []).map String.mk

/-- Python `s.strip()` (whitespace from both ends). -/
def strTrim (s : String) : String :=
  String.mk (((s.data.dropWhile isWsCh).reverse.dropWhile isWsCh).reverse)

/-- Python `s.strip(",")` (commas from both ends). -/
def trimCommas (s : String) : String :=
  String.mk (((s.data.dropWhile (· == ',')).reverse.dropWhile (· == ',')).reverse)

/-- ASCII lower-casing of one character. -/
def lowerCh (c : Char) : Char :=
  if 'A' ≤ c && c ≤ 'Z' then Char.ofNat (c.toNat + 32) else c

/-- Python `s.lower()` (ASCII range; the channel only lower-cases to look for
the ASCII tag `<msgsource>`). -/
def strLower (s : String) : String := String.mk (s.data.map lowerCh)

/- ### XML model (`xml.etree.ElementTree`) -/

/-- Parsed XML element: tag, attributes, text before the first child
(`Element.text`, `none` when there is none), children in document order. -/
inductive Xml where
  | mk (tag : String) (attrs : List (String × String)) (text : Option String)
       (children : List Xml)

/-- Element tag name. -/
def Xml.tag : Xml → String
  | .mk t _ _ _ => t

/-- Element attributes. -/
def Xml.attrs : Xml → List (String × String)
  | .mk _ a _ _ => a

/-- Element text (`Element.text`). -/
def Xml.text : Xml → Option String
  | .mk _ _ t _ => t

/-- Element children. -/
def Xml.children : Xml → List Xml
  | .mk _ _ _ c => c

/-- `element.get(name)` / `'name' in element.attrib`. -/
def Xml.getAttr (x : Xml) (name : String) : Option String :=
  (x.attrs.find? (fun p => p.1 = name)).map (·.2)

/-- `element.find("tag")` / `element.find("./tag")`: first direct child with
the given tag. -/
def Xml.findChild (x : Xml) (t : String) : Option Xml :=
  x.children.find? (fun c => c.tag = t)

/-- Worklist for `element.find(".//tag")`: first element of the stack (in
preorder, expanding children in place) with the given tag.  The fuel is
instantiated with the length of the string the tree was parsed from, which
bounds its number of nodes. -/
def findDescAux (t : String) : Nat → List Xml → Option Xml
  | 0, _ => none
  | _ + 1, [] => none
  | n + 1, x :: xs =>
    if x.tag = t then some x else findDescAux t n (x.children ++ xs)

/-- `root.find(".//tag")`: first descendant (document order) with the tag. -/
def Xml.findDesc (x : Xml) (t : String) (fuel : Nat) : Option Xml :=
  findDescAux t fuel x.children

/-- Characters allowed in a tag or attribute name. -/
def isNameCh (c : Char) : Bool :=
  c.isAlphanum || c == '_' || c == '-' || c == '.' || c == ':'

/-- Leading name characters and the rest. -/
def takeName (cs : List Char) : List Char × List Char :=
  (cs.takeWhile isNameCh, cs.dropWhile isNameCh)

/-- Attribute list of a start tag: `name="value"` or `name='value'` pairs up
to (and excluding) the closing `>` or `/>`. -/
def parseAttrs : Nat → List Char → Option (List (String × String) × List Char)
  | 0, _ => none
  | n + 1, cs =>
    let cs := cs.dropWhile isWsCh
    match cs with
    | [] => none
    | '>' :: _ => some ([], cs)
    | '/' :: _ => some ([], cs)
    | '?' :: _ => some ([], cs)
    | _ =>
      match takeName cs with
      | ([], _) => none
      | (nm, cs1) =>
        let cs2 := cs1.dropWhile isWsCh
        match cs2 with
        | '=' :: cs3 =>
          let cs4 := cs3.dropWhile isWsCh
          match cs4 with
          | q :: cs5 =>
            if q == '"' || q == Char.ofNat 39 then
              let v := cs5.takeWhile (fun c => c != q)
              match cs5.dropWhile (fun c => c != q) with
              | _ :: cs6 =>
                (parseAttrs n cs6).map
                  (fun p => ((String.mk nm, String.mk v) :: p.1, p.2))
              | [] => none
            else none
          | [] => none
        | _ => none

/-- Open element being parsed. -/
structure Frame where
  tag : String
  attrs : List (String × String)
  text : Option String
  childrenRev : List Xml

/-- Append a finished element to the enclosing frame. -/
def Frame.addChild (f : Frame) (x : Xml) : Frame :=
  { f with childrenRev := x :: f.childrenRev }

/-- Main parsing loop over a stack of open elements.  Consumes at least one
character per step, so fuel `length + 1` never runs out on inputs it
accepts. -/
def parseLoop : Nat → List Char → List Frame → Option (Xml × List Char)
  | 0, _, _ => none
  | _ + 1, [], _ => none
  | n + 1, '<' :: '/' :: cs1, stack =>
    match takeName cs1 with
    | (nm, cs2) =>
      match cs2.dropWhile isWsCh with
      | '>' :: cs3 =>
        match stack with
        | [] => none
        | f :: rest =>
          if String.mk nm = f.tag then
            let x := Xml.mk f.tag f.attrs f.text f.childrenRev.reverse
            match rest with
            | [] => some (x, cs3)
            | g :: gs => parseLoop n cs3 (g.addChild x :: gs)
          else none
      | _ => none
  | n + 1, '<' :: cs1, stack =>
    match takeName cs1 with
    | ([], _) => none
    | (nm, cs2) =>
      match parseAttrs (cs2.length + 1) cs2 with
      | none => none
      | some (attrs, cs3) =>
        match cs3 with
        | '/' :: '>' :: cs4 =>
          let x := Xml.mk (String.mk nm) attrs none []
          match stack with
          | [] => some (x, cs4)
          | g :: gs => parseLoop n cs4 (g.addChild x :: gs)
        | '>' :: cs4 => parseLoop n cs4 (⟨String.mk nm, attrs, none, []⟩ :: stack)
        | _ => none
  | n + 1, c :: cs, stack =>
    let txt := (c :: cs).takeWhile (fun ch => ch != '<')
    let cs1 := (c :: cs).dropWhile (fun ch => ch != '<')
    match stack with
    | [] => none
    | f :: gs =>
      if f.childrenRev.isEmpty && f.text.isNone then
        parseLoop n cs1 ({ f with text := some (String.mk txt) } :: gs)
      else parseLoop n cs1 stack

/-- Drop a leading `<? ... ?>` processing instruction (the XML declaration). -/
def dropProlog : List Char → Option (List Char)
  | [] => none
  | '?' :: '>' :: rest => some rest
  | _ :: rest => dropProlog rest

/-- Model of `ET.fromstring`: `some root` on a well-formed document (optional
declaration, one root element, whitespace around them), `none` on anything it
rejects (in particular any non-`<` junk before the root, as in
`"wxid:\n<msg>..."`). -/
def parseXml (s : String) : Option Xml :=
  let cs := s.data.dropWhile isWsCh
  let cs1 :=
    match cs with
    | '<' :: '?' :: rest => dropProlog rest
    | _ => some cs
  match cs1 with
  | none => none
  | some cs2 =>
    match parseLoop (cs2.length + 1) (cs2.dropWhile isWsCh) [] with
    | some (x, rest) => if rest.dropWhile isWsCh = [] then some x else none
    | none => none

/-- `ET.fromstring` as a raising operation (`xml.etree.ElementTree.ParseError`
on malformed input); the only throwing primitive the normalizer calls. -/
def etFromstring (s : String) : Except String Xml :=
  match parseXml s with
  | some x => .ok x
  | none => .error "ParseError"

/-- Text of a direct sub-element with default, as in
`pat.find(t).text if pat.find(t) is not None else ""`: present element gives
its `text` (possibly `none`, Python `None`), absent element gives `some ""`. -/
def childTextOr (x : Xml) (t : String) : Option String :=
  match x.findChild t with
  | some e => e.text
  | none => some ""

/- ### Models of the two regular expressions used by the channel -/

/-- Capture of `(.*?)` followed by a literal terminator: shortest prefix not
containing a newline (`.` does not match `\n`) that is followed by `term`. -/
def captureUntil (term : List Char) : Nat → List Char →
    Option (List Char × List Char)
  | 0, _ => none
  | n + 1, cs =>
    if isPrefixCh term cs then some ([], cs.drop term.length)
    else
      match cs with
      | [] => none
      | '\n' :: _ => none
      | c :: rest => (captureUntil term n rest).map (fun p => (c :: p.1, p.2))

/-- One attempt of `fromusername\s*=\s*["\'](.*?)["\']` anchored at the head
of `cs`. -/
def fromUserAttrAt (cs : List Char) : Option String :=
  if isPrefixCh "fromusername".data cs then
    let cs1 := (cs.drop 12).dropWhile isWsCh
    match cs1 with
    | '=' :: cs2 =>
      let cs3 := cs2.dropWhile isWsCh
      match cs3 with
      | q :: cs4 =>
        if q == '"' || q == Char.ofNat 39 then
          (captureUntilQuote (cs4.length + 1) cs4).map String.mk
        else none
      | [] => none
    | _ => none
  else none
where
  /-- shortest `(.*?)` before either quote character, no newline allowed. -/
  captureUntilQuote : Nat → List Char → Option (List Char)
    | 0, _ => none
    | _ + 1, [] => none
    | n + 1, c :: rest =>
      if c == '"' || c == Char.ofNat 39 then some []
      else if c == '\n' then none
      else (captureUntilQuote n rest).map (c :: ·)

/-- `re.search(r'fromusername\s*=\s*["\'](.*?)["\']', s)`: first position
where the attempt succeeds. -/
def findFromUserAttrAux : Nat → List Char → Option String
  | 0, _ => none
  | _ + 1, [] => none
  | n + 1, c :: rest =>
    match fromUserAttrAt (c :: rest) with
    | some v => some v
    | none => findFromUserAttrAux n rest

/-- Model of the attribute-form `fromusername` regex search. -/
def findFromUserAttr (s : String) : Option String :=
  findFromUserAttrAux (s.data.length + 1) s.data

/-- `re.search(r'<fromusername>(.*?)</fromusername>', s)`. -/
def findFromUserElemAux : Nat → List Char → Option String
  | 0, _ => none
  | _ + 1, [] => none
  | n + 1, c :: rest =>
    if isPrefixCh "<fromusername>".data (c :: rest) then
      let cs1 := (c :: rest).drop 14
      match captureUntil "</fromusername>".data (cs1.length + 1) cs1 with
      | some (v, _) => some (String.mk v)
      | none => findFromUserElemAux n rest
    else findFromUserElemAux n rest

/-- Model of the element-form `fromusername` regex search. -/
def findFromUserElem (s : String) : Option String :=
  findFromUserElemAux (s.data.length + 1) s.data

/- ### The normalizer (`_process_message` and the per-type processors) -/

/-- Is the message treated as a group message
(`cmsg.is_group or cmsg.from_user_id.endswith("@chatroom")`). -/
def groupish (st : CMsg) : Bool :=
  st.is_group || strEnds st.from_user_id "@chatroom"

/-- One colon-split sender attempt: `content.split(sep, 1)` succeeds with a
prefix that is non-empty and does not start with `"<"`. -/
def colonSplitValid (content sep : String) : Option (String × String) :=
  match splitOnce content sep with
  | some (p, r) => if p ≠ "" && !(strStarts p "<") then some (p, r) else none
  | none => none

/-- Alternate raw-field names probed for a sender id (method 4). -/
def senderKeys : List String := ["SenderUserName", "sender", "senderId", "fromUser"]

/-- First key present in the mapping with a truthy value, rendered with
`str(...)` (`if key in cmsg.msg and cmsg.msg[key]`). -/
def firstField : List String → List (String × RVal) → Option String
  | [], _ => none
  | k :: ks, m =>
    match msgGet m k with
    | some v => if rvalTruthy v then some (pyStr v) else firstField ks m
    | none => firstField ks m

/-- `cmsg.msg.get("MsgSource", "")` followed by its use as a string: a
non-string value makes the subsequent `.startswith`/`.lower()` call raise
(modelled at the read, always inside the enclosing `try`). -/
def getMsgSource (m : List (String × RVal)) : Except String String :=
  match msgGet m "MsgSource" with
  | some (.s v) => .ok v
  | some _ => .error "AttributeError"
  | none => .ok ""

/-- First tag of the list whose direct child exists with truthy text
(`elem = root.find(f"./tag"); if elem is not None and elem.text`). -/
def firstChildText : List String → Xml → Option String
  | [], _ => none
  | t :: ts, root =>
    match root.findChild t with
    | some e =>
      match e.text with
      | some s => if s ≠ "" then some s else firstChildText ts root
      | none => firstChildText ts root
    | none => firstChildText ts root

/-- First descendant with the given tag whose text is truthy (one
`root.find(".//tag")` probe). -/
def truthyDescText (root : Xml) (t : String) (fuel : Nat) : Option String :=
  match root.findDesc t fuel with
  | some e =>
    match e.text with
    | some s => if s ≠ "" then some s else none
    | none => none
  | none => none

/-- First tag of the list with a truthy-text descendant. -/
def firstDescText : List String → Xml → Nat → Option String
  | [], _, _ => none
  | t :: ts, root, fuel =>
    match truthyDescText root t fuel with
    | some s => some s
    | none => firstDescText ts root fuel

/-- Sender probe of the `MsgSource` block of `_process_text_message`
(method 3, lines 1042-1069; the inner `try` around the parse is the inner
`match`): yields the sender text and group display name the block would
assign (the caller performs the two assignments). -/
def textMsgSourceProbe (st : CMsg) : Except String (Option String × Option String) := do
  let ms ← getMsgSource st.msg
  if ms ≠ "" && (strStarts ms "<" || strContains (strLower ms) "<msgsource>") then
    let wrapped :=
      if !(strContains (strLower ms) "<msgsource>") then
        "<msgsource>" ++ ms ++ "</msgsource>"
      else ms
    match etFromstring wrapped with
    | .ok root =>
      pure (firstChildText ["username", "nickname", "alias", "fromusername"] root,
            firstChildText ["selfDisplayName", "displayname", "nickname"] root)
    | .error _ => pure (none, none)
  else pure (none, none)

/-- Group-sender extraction of `_process_text_message` (methods 1-4 plus the
placeholder fallback, lines 1016-1091). -/
def textGroupSender (st0 : CMsg) : Except String CMsg := do
  let st := { st0 with is_group := true }
  let (st, extracted) :=
    match colonSplitValid st.content ":\n" with
    | some (p, r) => ({ st with sender_wxid := p, content := r }, true)
    | none =>
      match colonSplitValid st.content ":" with
      | some (p, r) => ({ st with sender_wxid := p, content := r }, true)
      | none => (st, false)
  let (st, extracted) ←
    if !extracted then
      match textMsgSourceProbe st with
      | .ok (senderOpt, dispOpt) =>
        let st1 :=
          match senderOpt with
          | some t => { st with sender_wxid := t }
          | none => st
        let st2 :=
          match dispOpt with
          | some t => { st1 with self_display_name := t }
          | none => st1
        pure (st2, senderOpt.isSome)
      | .error _ => pure (st, false)
    else pure (st, extracted)
  let (st, extracted) :=
    if !extracted then
      match firstField senderKeys st.msg with
      | some v => ({ st with sender_wxid := v }, true)
      | none => (st, false)
    else (st, extracted)
  let st :=
    if !extracted || st.sender_wxid = "" then
      { st with sender_wxid := "未知用户_" ++ st.from_user_id }
    else st
  pure { st with other_user_id := st.from_user_id,
                 actual_user_id := st.sender_wxid,
                 actual_user_nickname := st.sender_wxid }

/-- `[x for x in s.strip(",").split(",") if x]`. -/
def atFromStrVal (s : String) : List String :=
  (splitFull (trimCommas s) ",").filter (fun x => x ≠ "")

/-- `[str(x) for x in at_value if x]` (elements modelled as strings, on which
`str` is the identity). -/
def atFromListVal (l : List String) : List String := l.filter (fun x => x ≠ "")

/-- Mention extraction method 1: `atuserlist` from the `MsgSource` block
(lines 1104-1116; the inner `try` is the inner `match`): yields the list the
block would assign. -/
def atMsgSourceProbe (st : CMsg) : Except String (Option (List String)) := do
  let ms ← getMsgSource st.msg
  if ms ≠ "" then
    let wrapped :=
      if !(strContains (strLower ms) "<msgsource>") then
        "<msgsource>" ++ ms ++ "</msgsource>"
      else ms
    match etFromstring wrapped with
    | .ok root =>
      match root.findDesc "atuserlist" (wrapped.data.length + 1) with
      | some ats =>
        match ats.text with
        | some t =>
          if t ≠ "" then pure (some (atFromStrVal t)) else pure none
        | none => pure none
      | none => pure none
    | .error _ => pure none
  else pure none

/-- Mention extraction method 2: alternate raw fields, stopping at the first
key that yields a non-empty list (lines 1119-1130). -/
def atKeysLoop : List String → CMsg → CMsg
  | [], st => st
  | k :: ks, st =>
    match msgGet st.msg k with
    | some v =>
      let st1 :=
        match v with
        | .l xs => { st with at_list := atFromListVal xs }
        | .s s => { st with at_list := atFromStrVal s }
        | .i _ => st
      if st1.at_list.isEmpty then atKeysLoop ks st1 else st1
    | none => atKeysLoop ks st

/-- Mention extraction method 3: detect a literal `@<bot name>` or
`@<group alias>` in the content (lines 1132-1142). -/
def atMentionDetect (env : Env) (st : CMsg) : CMsg :=
  if st.is_group && st.at_list.isEmpty && strContains st.content "@" then
    if env.name ≠ "" && strContains st.content ("@" ++ env.name) then
      { st with at_list := st.at_list ++ [env.wxid] }
    else if st.self_display_name ≠ "" &&
        strContains st.content ("@" ++ st.self_display_name) then
      { st with at_list := st.at_list ++ [env.wxid] }
    else st
  else st

/-- Final mention-list normalization (lines 1147-1149): an empty list or a
single empty-string element becomes the empty list. -/
def atCleanup (l : List String) : List String :=
  if l.isEmpty || l = [""] then [] else l

/-- The whole mention block of `_process_text_message` (outer `try` of lines
1103-1145; its handler resets the list, the only field the region writes). -/
def atListBlock (env : Env) (st : CMsg) : Except String CMsg :=
  match (do
      let r ← atMsgSourceProbe st
      let st1 :=
        match r with
        | some l => { st with at_list := l }
        | none => st
      let st2 :=
        if st1.at_list.isEmpty then
          atKeysLoop ["AtUserList", "at_list", "atlist"] st1
        else st1
      pure (atMentionDetect env st2) : Except String CMsg) with
  | .ok st3 => pure st3
  | .error _ => pure { st with at_list := [] }

/-- `_process_text_message` (lines 1010-1152). -/
def processTextMessage (env : Env) (st0 : CMsg) : Except String CMsg := do
  let st := { st0 with ctype := .TEXT }
  let st ←
    if groupish st then textGroupSender st
    else
      pure { st with sender_wxid := st.from_user_id, is_group := false,
                     actual_user_id := st.from_user_id,
                     actual_user_nickname := st.from_user_id }
  let st ← atListBlock env st
  pure { st with at_list := atCleanup st.at_list }

/-- Sender block of `_process_image_message` (lines 1160-1187): colon splits
without validity checks, stripping the prefix from the content. -/
def imageSenderSplit (st : CMsg) : CMsg :=
  if groupish st then
    let st := { st with is_group := true }
    let st :=
      match splitOnce st.content ":\n" with
      | some (p, r) => { st with sender_wxid := p, content := r }
      | none =>
        match splitOnce st.content ":" with
        | some (p, r) => { st with sender_wxid := p, content := r }
        | none => { st with sender_wxid := "" }
    { st with actual_user_id := st.sender_wxid,
              actual_user_nickname := st.sender_wxid }
  else
    { st with sender_wxid := st.from_user_id, is_group := false,
              actual_user_id := st.from_user_id,
              actual_user_nickname := st.from_user_id }

/-- Image-payload block of `_process_image_message` (lines 1189-1203, a
`try`): the failure handler assigns the empty payload (`some []`). -/
def imageInfoStep (st : CMsg) : CMsg :=
  match etFromstring st.content with
  | .ok root =>
    match root.findChild "img" with
    | some img =>
      let info := [("aeskey", img.getAttr "aeskey"),
                   ("cdnmidimgurl", img.getAttr "cdnmidimgurl"),
                   ("length", img.getAttr "length"),
                   ("md5", img.getAttr "md5")]
      { st with image_info := some info }
    | none => st
  | .error _ => { st with image_info := some [] }

/-- `_process_image_message` (lines 1154-1206). -/
def processImageMessage (st0 : CMsg) : Except String CMsg :=
  pure (imageInfoStep (imageSenderSplit { st0 with ctype := .IMAGE }))

/-- Content looks like an XML document
(`content.strip().startswith("<?xml") or content.strip().startswith("<msg")`). -/
def xmlShaped (s : String) : Bool :=
  strStarts (strTrim s) "<?xml" || strStarts (strTrim s) "<msg"

/-- XML phase of the voice sender extraction (lines 1226-1248: attribute
regex, element regex, then the inner `try` around an ElementTree probe of the
`voicemsg` attribute): yields the sender the phase would assign. -/
def voiceXmlProbe (original : String) : Except String (Option String) :=
  match findFromUserAttr original with
  | some u => pure (some u)
  | none =>
    match findFromUserElem original with
    | some u => pure (some u)
    | none =>
      match etFromstring original with
      | .ok root =>
        match root.findChild "voicemsg" with
        | some v => pure (v.getAttr "fromusername")
        | none => pure none
      | .error _ => pure none

/-- Content restore shared by the voice (line 1290), video (1369) and emoji
(1441) processors (`cmsg.content = original_content`). -/
def contentRestore (original : String) (st : CMsg) : CMsg :=
  { st with content := original }

/-- Colon-split fallback shared verbatim by the voice (lines 1253-1264),
video (1346-1357) and emoji (1418-1429) processors: splits the original
content without validity checks, without stripping it, and marks the message
as group. -/
def mediaSplitStep (original : String) (st : CMsg) : CMsg :=
  if st.sender_wxid = "" && (st.is_group || strEnds st.from_user_id "@chatroom") then
    let st := { st with is_group := true }
    match splitOnce original ":\n" with
    | some (p, _) => { st with sender_wxid := p }
    | none =>
      match splitOnce original ":" with
      | some (p, _) => { st with sender_wxid := p }
      | none => st
  else st

/-- Private-chat fallback shared by the voice (lines 1267-1269), video
(1360-1362) and emoji (1432-1434) processors. -/
def mediaPrivStep (st : CMsg) : CMsg :=
  if st.sender_wxid = "" && !st.is_group then
    { st with sender_wxid := st.from_user_id, is_group := false }
  else st

/-- `actual_user_id`/`actual_user_nickname` assignment shared by the voice
(lines 1272-1273), video (1365-1366) and emoji (1437-1438) processors
(`cmsg.sender_wxid or cmsg.from_user_id`). -/
def mediaActualStep (st : CMsg) : CMsg :=
  { st with
    actual_user_id := if st.sender_wxid ≠ "" then st.sender_wxid else st.from_user_id,
    actual_user_nickname := if st.sender_wxid ≠ "" then st.sender_wxid else st.from_user_id }

/-- Final sender sanity check shared by the voice (lines 1293-1296), video
(1372-1375) and emoji (1444-1447) processors: an empty sender or one
containing `"<"` is replaced by the literal placeholder. -/
def senderFinalCheck (st : CMsg) : CMsg :=
  if st.sender_wxid = "" || strContains st.sender_wxid "<" then
    { st with sender_wxid := "未知发送者", actual_user_id := "未知发送者",
              actual_user_nickname := "未知发送者" }
  else st

/-- Voice-payload block of `_process_voice_message` (lines 1275-1287, a
`try`). -/
def voiceInfoStep (original : String) (st : CMsg) : CMsg :=
  match etFromstring original with
  | .ok root =>
    match root.findChild "voicemsg" with
    | some v =>
      let info := [("voiceurl", v.getAttr "voiceurl"), ("length", v.getAttr "length")]
      { st with voice_info := some info }
    | none => st
  | .error _ => { st with voice_info := some [] }

/-- `_process_voice_message` (lines 1208-1299). -/
def processVoiceMessage (st0 : CMsg) : Except String CMsg := do
  let st := { st0 with ctype := .VOICE }
  let original := st.content
  let st ←
    if xmlShaped original then
      match voiceXmlProbe original with
      | .ok (some u) => pure { st with sender_wxid := u }
      | .ok none => pure st
      | .error _ => pure st
    else pure st
  let st := mediaSplitStep original st
  let st := mediaPrivStep st
  let st := mediaActualStep st
  let st := voiceInfoStep original st
  let st := contentRestore original st
  pure (senderFinalCheck st)

/-- XML phase of the video sender extraction (lines 1319-1341): yields the
sender the phase would assign. -/
def videoXmlProbe (original : String) : Except String (Option String) :=
  match findFromUserAttr original with
  | some u => pure (some u)
  | none =>
    match findFromUserElem original with
    | some u => pure (some u)
    | none =>
      match etFromstring original with
      | .ok root =>
        match root.findChild "videomsg" with
        | some v => pure (v.getAttr "fromusername")
        | none => pure none
      | .error _ => pure none

/-- `_process_video_message` (lines 1301-1378). -/
def processVideoMessage (st0 : CMsg) : Except String CMsg := do
  let st := { st0 with ctype := .VIDEO }
  let original := st.content
  let st ←
    if xmlShaped original then
      match videoXmlProbe original with
      | .ok (some u) => pure { st with sender_wxid := u }
      | .ok none => pure st
      | .error _ => pure st
    else pure st
  let st := mediaSplitStep original st
  let st := mediaPrivStep st
  let st := mediaActualStep st
  let st := contentRestore original st
  pure (senderFinalCheck st)

/-- XML phase of the emoji sender extraction (lines 1397-1413: attribute
regex only, then the inner `try` around an ElementTree probe of the `emoji`
attribute): yields the sender the phase would assign. -/
def emojiXmlProbe (original : String) : Except String (Option String) :=
  match findFromUserAttr original with
  | some u => pure (some u)
  | none =>
    match etFromstring original with
    | .ok root =>
      match root.findChild "emoji" with
      | some v => pure (v.getAttr "fromusername")
      | none => pure none
    | .error _ => pure none

/-- `_process_emoji_message` (lines 1380-1450); emoji messages are classified
as TEXT. -/
def processEmojiMessage (st0 : CMsg) : Except String CMsg := do
  let st := { st0 with ctype := .TEXT }
  let original := st.content
  let st ←
    if xmlShaped original then
      match emojiXmlProbe original with
      | .ok (some u) => pure { st with sender_wxid := u }
      | .ok none => pure st
      | .error _ => pure st
    else pure st
  let st := mediaSplitStep original st
  let st := mediaPrivStep st
  let st := mediaActualStep st
  let st := contentRestore original st
  pure (senderFinalCheck st)

/-- Group-sender block of `_process_xml_message` (lines 1485-1526): regex
probes (inside a `try` that nothing in it can raise), colon splits checking
only the `"<"` prefix, then the placeholder. -/
def xmlGroupSender (original : String) (st : CMsg) : CMsg :=
  let st := { st with is_group := true, sender_wxid := "" }
  let st :=
    if xmlShaped original then
      match findFromUserAttr original with
      | some u => { st with sender_wxid := u }
      | none =>
        match findFromUserElem original with
        | some u => { st with sender_wxid := u }
        | none => st
    else st
  let st :=
    if st.sender_wxid = "" then
      match splitOnce original ":\n" with
      | some (p, _) =>
        if !(strStarts p "<") then { st with sender_wxid := p }
        else
          match splitOnce original ":" with
          | some (q, _) =>
            if !(strStarts q "<") then { st with sender_wxid := q } else st
          | none => st
      | none =>
        match splitOnce original ":" with
        | some (q, _) =>
          if !(strStarts q "<") then { st with sender_wxid := q } else st
        | none => st
    else st
  if st.sender_wxid = "" then
    { st with sender_wxid := "未知用户_" ++ st.from_user_id }
  else st

/-- `_process_xml_message` (lines 1452-1537, type-49 app messages): the type
is set to XML unconditionally (`ContextType.XML` exists at import time) and
only the sender is extracted; no nested `appmsg` classification happens. -/
def processXmlMessage (st0 : CMsg) : Except String CMsg :=
  let st := { st0 with ctype := .XML }
  let original := st.content
  let st :=
    if groupish st then xmlGroupSender original st
    else { st with sender_wxid := st.from_user_id, is_group := false }
  pure (mediaActualStep st)

/-- Plain system-message outcome (lines 1570-1576). -/
def sysDefault (st : CMsg) : CMsg :=
  { st with ctype := .SYSTEM, sender_wxid := "系统消息",
            actual_user_id := "系统消息", actual_user_nickname := "系统消息" }

/-- `_process_system_message` (lines 1539-1578): a `<pat` marker triggers a
parse (inside `try`) and, when the root has a direct `pat` child, a PAT
classification with each field defaulting to the empty string when its
sub-element is absent; everything else is SYSTEM. -/
def processSystemMessage (st0 : CMsg) : Except String CMsg := do
  if strContains st0.content "<pat" then
    match etFromstring st0.content with
    | .ok root =>
      match root.findChild "pat" with
      | some pat =>
        let patter := childTextOr pat "fromusername"
        let patted := childTextOr pat "pattedusername"
        let psuffix := childTextOr pat "patsuffix"
        pure { st0 with ctype := .PAT,
                        pat_info := some ⟨patter, patted, psuffix⟩,
                        sender_wxid := patter.getD "",
                        actual_user_id := patter.getD "",
                        actual_user_nickname := patter.getD "" }
      | none => pure (sysDefault st0)
    | .error _ => pure (sysDefault st0)
  else pure (sysDefault st0)

/-- Group-nickname block of `_process_message` (lines 856-892): the
`wx849_rooms.json` lookup is external input (see `Env.roomsCacheName`); when
it produces nothing the bot's name is used. -/
def nicknameBlock (env : Env) (st : CMsg) : CMsg :=
  if st.is_group && st.self_display_name = "" then
    { st with self_display_name := env.roomsCacheName.getD env.name }
  else st

/-- XML attempt of the post-dispatch sender re-extraction (method 3, lines
938-962): a parse of the whole content, probed only when the root tag is
`msg`; yields the sender the attempt would assign. -/
def repassXmlProbe (st : CMsg) : Except String (Option String) := do
  let root ← etFromstring st.content
  if root.tag = "msg" then
    let fuel := st.content.data.length + 1
    match truthyDescText root "username" fuel with
    | some t => pure (some t)
    | none => pure (firstDescText ["fromusername", "sender", "from"] root fuel)
  else pure none

/-- Post-dispatch sender pass of `_process_message` (lines 914-1000): for
group messages the whole extraction cascade is re-run on the (possibly
already stripped) current content; for private messages the sender is the
origin id. -/
def senderRepass (st0 : CMsg) : Except String CMsg := do
  if groupish st0 then
    let (st, extracted) :=
      match colonSplitValid st0.content ":\n" with
      | some (p, r) => ({ st0 with sender_wxid := p, content := r }, true)
      | none =>
        match colonSplitValid st0.content ":" with
        | some (p, r) => ({ st0 with sender_wxid := p, content := r }, true)
        | none => (st0, false)
    let (st, extracted) ←
      if !extracted && st.content ≠ "" && strStarts st.content "<" then
        match repassXmlProbe st with
        | .ok (some t) => pure ({ st with sender_wxid := t }, true)
        | .ok none => pure (st, false)
        | .error _ => pure (st, false)
      else pure (st, extracted)
    let (st, extracted) :=
      if !extracted then
        match firstField senderKeys st.msg with
        | some v => ({ st with sender_wxid := v }, true)
        | none => (st, false)
      else (st, extracted)
    let st :=
      if !extracted || st.sender_wxid = "" then
        { st with sender_wxid := "未知用户_" ++ st.from_user_id }
      else st
    pure { st with other_user_id := st.from_user_id,
                   actual_user_id := st.sender_wxid,
                   actual_user_nickname := st.sender_wxid }
  else
    pure { st0 with sender_wxid := st0.from_user_id, is_group := false,
                    actual_user_id := st0.from_user_id,
                    actual_user_nickname := st0.from_user_id }

/-- Effective type tag (lines 851-853): the record's tag, or the raw `Type`
field when the former is falsy. -/
def effMsgType (st : CMsg) : RVal :=
  if rvalTruthy st.msg_type then st.msg_type
  else
    match msgGet st.msg "Type" with
    | some v => v
    | none => st.msg_type

/-- `msg_type in [n, numStr, label]` (integer and string encodings of one
tag). -/
def tagMatches (t : RVal) (n : Int) (numStr label : String) : Bool :=
  match t with
  | .i m => m == n
  | .s v => v == numStr || v == label
  | .l _ => false

/-- `_process_message` (lines 848-1000): nickname block, dispatch on the type
tag, then the post-dispatch sender pass. -/
def processMessage (env : Env) (st0 : CMsg) : Except String CMsg := do
  let t := effMsgType st0
  let st := nicknameBlock env st0
  let st ←
    if tagMatches t 1 "1" "Text" then processTextMessage env st
    else if tagMatches t 3 "3" "Image" then processImageMessage st
    else if tagMatches t 34 "34" "Voice" then processVoiceMessage st
    else if tagMatches t 43 "43" "Video" then processVideoMessage st
    else if tagMatches t 47 "47" "Emoji" then processEmojiMessage st
    else if tagMatches t 49 "49" "App" then processXmlMessage st
    else if tagMatches t 10000 "10000" "System" then processSystemMessage st
    else pure { st with ctype := .UNKNOWN }
  senderRepass st

/- ### The `_check` deduplication wrapper (lines 134-163) -/

/-- Synthesized message id
(`f"msg_{int(time.time())}_{hash(str(cmsg.msg))}"`); the Python `hash` of the
rendered mapping is an abstract function of the mapping. -/
def synthMsgId (now : Int) (h : Int) : String :=
  "msg_" ++ toString now ++ "_" ++ toString h

/-- Effective message id used by `_check`: the record's id, or a synthesized
one when it is falsy. -/
def effMsgId (st : CMsg) (now : Int) (hashf : List (String × RVal) → Int) : String :=
  if st.msg_id = "" then synthMsgId now (hashf st.msg) else st.msg_id

/-- The `_check` wrapper around `handle_single`/`handle_group`: returns the
updated seen-id set and whether the wrapped handler runs.  `received` models
`self.received_msgs` (within its expiry window), `now` the current unix
second; the source samples `time.time()` twice (id synthesis and staleness
check), modelled as one sample since at most a one-second skew separates
them and neither claim depends on it. -/
def checkGate (received : List String) (now : Int)
    (hashf : List (String × RVal) → Int) (st : CMsg) : List String × Bool :=
  let mid := effMsgId st now hashf
  if received.contains mid then (received, false)
  else
    let r := mid :: received
    if st.create_time < now - 60 then (r, false) else (r, true)

/- ### Statement-level definitions -/

/-- Condition under which `_process_system_message` takes the PAT branch: the
content carries the `<pat` marker, parses, and the root has a direct `pat`
child. -/
def patCondition (st : CMsg) : Bool :=
  strContains st.content "<pat" &&
    match parseXml st.content with
    | some root => (root.findChild "pat").isSome
    | none => false

/-- The type tags the dispatch of `_process_message` recognizes. -/
def recognizedTag (t : RVal) : Bool :=
  tagMatches t 1 "1" "Text" || tagMatches t 3 "3" "Image" ||
  tagMatches t 34 "34" "Voice" || tagMatches t 43 "43" "Video" ||
  tagMatches t 47 "47" "Emoji" || tagMatches t 49 "49" "App" ||
  tagMatches t 10000 "10000" "System"

/-- Extract the successful result of a normalizer run (all runs succeed; the
default is never reached on the concrete inputs below). -/
def getOk (e : Except String CMsg) : CMsg :=
  match e with
  | .ok o => o
  | .error _ => initialMsg [] "" 0 "" (.i 0) false ""

/-- Empty element used as a default when extracting parse results. -/
def dummyXml : Xml := Xml.mk "" [] none []

/-- Channel configuration used by the concrete runs: bot name `BotName`,
bot wxid `bot_wxid`, no rooms-cache hit. -/
def envT : Env := ⟨"BotName", "bot_wxid", none⟩

/-- C1 input: the spec's own example, a group text message (tag 1) with raw
content `"wxidA:\nhello @BotName"`. -/
def msgC1 : CMsg := initialMsg [] "msgid1" 0 "wxidA:\nhello @BotName" (.i 1) true "room1@chatroom"

/-- C1 output of the whole normalizer on the example. -/
def c1_out : CMsg := getOk (processMessage envT msgC1)

/-- C2 input: group message whose content carries the colon-prefix sender
`wxidA` and a disagreeing `fromusername` attribute `wxidB`. -/
def msgC2 : CMsg :=
  initialMsg [] "msgid2" 0 "wxidA:\n<msg fromusername=\"wxidB\"></msg>" (.i 1) true "room2@chatroom"

/-- C2 text-processor output. -/
def c2_text_out : CMsg := getOk (processTextMessage envT msgC2)

/-- C2 voice-processor output (same content, tag 34). -/
def c2_voice_out : CMsg := getOk (processVoiceMessage { msgC2 with msg_type := .i 34 })

/-- C2 video-processor output (same content, tag 43). -/
def c2_video_out : CMsg := getOk (processVideoMessage { msgC2 with msg_type := .i 43 })

/-- C4 counterexample input: a message with type tag `"10002"` and plain
content. -/
def msgC4bad : CMsg := initialMsg [] "msgid4" 0 "hello" (.s "10002") false "friend1"

/-- C4 counterexample output. -/
def c4_bad_out : CMsg := getOk (processMessage envT msgC4bad)

/-- C4 witness input: tag 10000 with a pat payload (the spec's own PAT
example wrapped in its `sysmsg` carrier). -/
def msgC4pat : CMsg :=
  initialMsg [] "msgid4b" 0
    "<sysmsg type=\"pat\"><pat><fromusername>u1</fromusername><pattedusername>u2</pattedusername></pat></sysmsg>"
    (.i 10000) false "friend1"

/-- C4 witness output. -/
def c4_pat_out : CMsg := getOk (processMessage envT msgC4pat)

/-- Root element of the C4 witness content. -/
def c4_root : Xml := (parseXml msgC4pat.content).getD dummyXml

/-- `pat` element of the C4 witness content. -/
def c4_pat_elem : Xml := (c4_root.findChild "pat").getD dummyXml

/-- C4 witness input for the SYSTEM side: tag 10000, plain content. -/
def msgC4sys : CMsg := initialMsg [] "msgid4c" 0 "you recalled a message" (.i 10000) false "friend1"

/-- C4 SYSTEM-side output. -/
def c4_sys_out : CMsg := getOk (processMessage envT msgC4sys)

/-- C5 counterexample input: unrecognized tag 99 with content lacking the
`<sysmsg` marker. -/
def msgC5 : CMsg := initialMsg [] "msgid5" 0 "hello" (.i 99) false "friend1"

/-- C5 counterexample output. -/
def c5_out : CMsg := getOk (processMessage envT msgC5)

/-- C5 witness input for the amended claim: unrecognized string tag. -/
def msgC5w : CMsg := initialMsg [] "msgid5b" 0 "whatever" (.s "77") true "room5@chatroom"

/-- C5 witness output. -/
def c5_w_out : CMsg := getOk (processMessage envT msgC5w)

/-- C6 counterexample input: a type-49 app message whose nested
`<appmsg><type>` is 57 (a quote message). -/
def msgC6 : CMsg :=
  initialMsg [] "msgid6" 0
    "<msg><appmsg><type>57</type><title>quoted</title></appmsg></msg>"
    (.i 49) false "friend2"

/-- C6 counterexample output. -/
def c6_out : CMsg := getOk (processMessage envT msgC6)

/-- C6 witness input: a type-49 message with unparseable content. -/
def msgC6w : CMsg := initialMsg [] "msgid6b" 0 "<msg><appmsg" (.s "49") true "room6@chatroom"

/-- C6 witness output. -/
def c6_w_out : CMsg := getOk (processMessage envT msgC6w)

/-- C7 counterexample input: a group text message whose only sender source is
the alternate raw field `SenderUserName` holding `"<x>"`. -/
def msgC7 : CMsg := initialMsg [("SenderUserName", .s "<x>")] "msgid7" 0 "hi" (.i 1) true "room7@chatroom"

/-- C7 counterexample output. -/
def c7_out : CMsg := getOk (processMessage envT msgC7)

/-- C7 witness input: a group message with no sender source at all. -/
def msgC7w : CMsg := initialMsg [] "msgid7b" 0 "hi" (.i 1) true "room7@chatroom"

/-- C7 witness output. -/
def c7_w_out : CMsg := getOk (processMessage envT msgC7w)

/-- Hash function used by the concrete `_check` runs (the Python `hash` is
process-dependent; any function of the raw mapping instantiates it). -/
def hash0 : List (String × RVal) → Int := fun _ => 0

/-- C9 input: a raw event with an absent message id. -/
def msgC9 : CMsg := initialMsg [] "" 50 "x" (.i 1) false "friend3"

/-- C9 companion input: same raw mapping as `msgC9`, different creation
timestamp and content field. -/
def msgC9b : CMsg := { msgC9 with create_time := 999, content := "zzz" }

/-- C10 input: a fresh message with id `m1` created at second 90. -/
def msgC10 : CMsg := initialMsg [] "m1" 90 "y" (.i 1) false "friend4"

/- ### Helper lemmas -/

/-- Inversion of `bind` over `Except`. -/
theorem except_bind_ok {α β : Type} (a : Except String α) (f : α → Except String β)
    (b : β) : a >>= f = .ok b ↔ ∃ x, a = .ok x ∧ f x = .ok b := by
  cases a <;> simp [Bind.bind, Except.bind]

/-- Reduction of `bind` on a successful `Except`. -/
theorem ok_bind {α β : Type} (a : α) (f : α → Except String β) :
    (Except.ok a >>= f : Except String β) = f a := rfl

/-- Reduction of `bind` on `pure`. -/
theorem pure_bind_e {α β : Type} (a : α) (f : α → Except String β) :
    ((pure a : Except String α) >>= f) = f a := rfl

/-- Restoring the content does not change the group character. -/
theorem groupish_content (st : CMsg) (c : String) :
    groupish { st with content := c } = groupish st := rfl

/-- A valid colon split has a non-empty prefix that does not start with
`"<"`. -/
theorem colonSplitValid_facts (content sep p r : String)
    (h : colonSplitValid content sep = some (p, r)) :
    p ≠ "" ∧ strStarts p "<" = false := by
  unfold colonSplitValid at h
  split at h
  · next q s heq =>
    split at h
    · next hcond =>
      simp only [Option.some.injEq, Prod.mk.injEq] at h
      obtain ⟨hp, hr⟩ := h
      subst hp
      simp only [Bool.and_eq_true, decide_eq_true_eq, Bool.not_eq_true'] at hcond
      exact ⟨hcond.1, hcond.2⟩
    · exact absurd h (by simp)
  · exact absurd h (by simp)

/-- The voice-payload block does not touch the sender. -/
theorem voiceInfoStep_sender (o : String) (st : CMsg) :
    (voiceInfoStep o st).sender_wxid = st.sender_wxid := by
  unfold voiceInfoStep
  repeat' split
  all_goals rfl

/-- Successful method-1 evaluation of the shared media colon split. -/
theorem mediaSplitStep_m1 (o : String) (st : CMsg) (p r : String)
    (he : st.sender_wxid = "") (hg : st.is_group = true)
    (hsplit : splitOnce o ":\n" = some (p, r)) :
    mediaSplitStep o st = { st with is_group := true, sender_wxid := p } := by
  unfold mediaSplitStep
  simp [he, hg, hsplit]

/-- The private-chat fallback is inert on a non-empty sender. -/
theorem mediaPrivStep_keep (st : CMsg) (h : st.sender_wxid ≠ "") :
    mediaPrivStep st = st := by
  unfold mediaPrivStep
  simp [h]

/-- The final sender check keeps a non-empty sender free of `"<"`. -/
theorem senderFinalCheck_keep (st : CMsg) (h1 : st.sender_wxid ≠ "")
    (h2 : strContains st.sender_wxid "<" = false) :
    senderFinalCheck st = st := by
  unfold senderFinalCheck
  simp [h1, h2]

/-- Successful method-1 evaluation of the text group-sender cascade: when the
`":\n"` split yields a valid prefix, the sender is that prefix and the content
is stripped, whatever else the content holds. -/
theorem textGroupSender_m1 (st : CMsg) (p r : String)
    (hsplit : colonSplitValid st.content ":\n" = some (p, r)) :
    textGroupSender st = Except.ok
      { st with is_group := true, sender_wxid := p, content := r,
                other_user_id := st.from_user_id,
                actual_user_id := p, actual_user_nickname := p } := by
  obtain ⟨hp, _⟩ := colonSplitValid_facts _ _ _ _ hsplit
  unfold textGroupSender
  dsimp only
  rw [hsplit]
  simp [pure_bind_e, hp]
  rfl

/-- The placeholder sender is never the empty string. -/
theorem unknownUser_ne_empty (s : String) : ("未知用户_" ++ s) ≠ "" := by
  intro h
  have h2 := congrArg String.data h
  cases s with
  | mk d => simp [String.append] at h2

/-- The post-dispatch sender pass succeeds on every state, only rewrites the
sender-related fields, leaves a non-empty sender on the group path and the
origin id on the private path. -/
theorem senderRepass_spec (st0 : CMsg) :
    ∃ out, senderRepass st0 = Except.ok out ∧
      out.ctype = st0.ctype ∧ out.pat_info = st0.pat_info ∧
      out.from_user_id = st0.from_user_id ∧
      (groupish st0 = true → out.sender_wxid ≠ "") ∧
      (groupish st0 = false → out.sender_wxid = st0.from_user_id) := by
  unfold senderRepass
  cases hg : groupish st0 with
  | false =>
    simp only [hg, Bool.false_eq_true, if_false, pure, Except.pure]
    exact ⟨_, rfl, rfl, rfl, rfl, by simp, fun _ => rfl⟩
  | true =>
    simp only [hg, if_true, Bind.bind, Except.bind, pure, Except.pure]
    repeat' split
    all_goals
      refine ⟨_, rfl, rfl, rfl, rfl, fun _ => ?_, fun hf => nomatch hf⟩
    all_goals simp_all [unknownUser_ne_empty]

/-- The group-nickname block only writes the display name. -/
theorem nicknameBlock_pres (env : Env) (st : CMsg) :
    (nicknameBlock env st).content = st.content ∧
    (nicknameBlock env st).msg = st.msg ∧
    (nicknameBlock env st).ctype = st.ctype ∧
    (nicknameBlock env st).pat_info = st.pat_info ∧
    (nicknameBlock env st).from_user_id = st.from_user_id ∧
    (nicknameBlock env st).is_group = st.is_group ∧
    (nicknameBlock env st).sender_wxid = st.sender_wxid := by
  unfold nicknameBlock
  split <;> simp

/-- The alternate-field mention loop only writes the mention list. -/
theorem atKeysLoop_pres (keys : List String) (st : CMsg) :
    (atKeysLoop keys st).sender_wxid = st.sender_wxid ∧
    (atKeysLoop keys st).content = st.content ∧
    (atKeysLoop keys st).ctype = st.ctype ∧
    (atKeysLoop keys st).pat_info = st.pat_info ∧
    (atKeysLoop keys st).from_user_id = st.from_user_id ∧
    (atKeysLoop keys st).is_group = st.is_group := by
  induction keys generalizing st with
  | nil => simp [atKeysLoop]
  | cons k ks ih =>
    unfold atKeysLoop
    split
    · dsimp only
      repeat' split
      all_goals simp_all [ih]
    · exact ih st

/-- The `@`-detection step only writes the mention list. -/
theorem atMentionDetect_pres (env : Env) (st : CMsg) :
    (atMentionDetect env st).sender_wxid = st.sender_wxid ∧
    (atMentionDetect env st).content = st.content ∧
    (atMentionDetect env st).ctype = st.ctype ∧
    (atMentionDetect env st).pat_info = st.pat_info ∧
    (atMentionDetect env st).from_user_id = st.from_user_id ∧
    (atMentionDetect env st).is_group = st.is_group := by
  unfold atMentionDetect
  repeat' split
  all_goals simp

/-- The whole mention block succeeds and only writes the mention list. -/
theorem atListBlock_spec (env : Env) (st : CMsg) :
    ∃ out, atListBlock env st = Except.ok out ∧
      out.sender_wxid = st.sender_wxid ∧
      out.content = st.content ∧
      out.ctype = st.ctype ∧
      out.pat_info = st.pat_info ∧
      out.from_user_id = st.from_user_id ∧
      out.is_group = st.is_group := by
  unfold atListBlock
  cases hpr : atMsgSourceProbe st with
  | error e =>
    simp only [hpr, Bind.bind, Except.bind, pure, Except.pure]
    exact ⟨_, rfl, rfl, rfl, rfl, rfl, rfl, rfl⟩
  | ok r =>
    simp only [hpr, Bind.bind, Except.bind, pure, Except.pure]
    repeat' split
    all_goals
      refine ⟨_, rfl, ?_, ?_, ?_, ?_, ?_, ?_⟩ <;>
        simp [atMentionDetect_pres, atKeysLoop_pres]

/-- The text group-sender cascade succeeds and only writes sender-related
fields, the content, and the group flag. -/
theorem textGroupSender_spec (st : CMsg) :
    ∃ out, textGroupSender st = Except.ok out ∧
      out.ctype = st.ctype ∧ out.pat_info = st.pat_info ∧
      out.from_user_id = st.from_user_id ∧ out.is_group = true := by
  unfold textGroupSender
  simp only [Bind.bind, Except.bind, pure, Except.pure]
  repeat' split
  all_goals exact ⟨_, rfl, rfl, rfl, rfl, rfl⟩

/-- `_process_text_message` succeeds, classifies as TEXT, and preserves the
origin id, the pat payload and the group character of the message. -/
theorem processTextMessage_spec (env : Env) (st0 : CMsg) :
    ∃ out, processTextMessage env st0 = Except.ok out ∧
      out.ctype = .TEXT ∧ out.pat_info = st0.pat_info ∧
      out.from_user_id = st0.from_user_id ∧ groupish out = groupish st0 := by
  by_cases hg : groupish { st0 with ctype := CType.TEXT } = true
  · obtain ⟨o1, h1, hc1, hp1, hf1, hg1⟩ := textGroupSender_spec { st0 with ctype := CType.TEXT }
    obtain ⟨o2, h2, hs2, hco2, hc2, hp2, hf2, hig2⟩ := atListBlock_spec env o1
    have hgst : groupish st0 = true := hg
    have hrun : processTextMessage env st0 =
        Except.ok { o2 with at_list := atCleanup o2.at_list } := by
      unfold processTextMessage
      rw [if_pos hg]
      simp only [h1, ok_bind, h2, pure_bind_e]
      rfl
    refine ⟨_, hrun, ?_, ?_, ?_, ?_⟩
    · simp [hc2, hc1]
    · simp [hp2, hp1]
    · simp [hf2, hf1]
    · have hx : groupish { o2 with at_list := atCleanup o2.at_list } = true := by
        simp [groupish, hig2, hg1]
      rw [hx, hgst]
  · have hgst : groupish st0 = false := (Bool.not_eq_true (groupish st0)).mp hg
    have hsplit := Bool.or_eq_false_iff.mp hgst
    obtain ⟨o2, h2, hs2, hco2, hc2, hp2, hf2, hig2⟩ :=
      atListBlock_spec env
        { st0 with
          ctype := CType.TEXT,
          sender_wxid := st0.from_user_id,
          is_group := false,
          actual_user_id := st0.from_user_id,
          actual_user_nickname := st0.from_user_id }
    have hrun : processTextMessage env st0 =
        Except.ok { o2 with at_list := atCleanup o2.at_list } := by
      unfold processTextMessage
      rw [if_neg hg]
      simp only [pure_bind_e, h2, ok_bind]
      rfl
    refine ⟨_, hrun, ?_, ?_, ?_, ?_⟩
    · simp [hc2]
    · simp [hp2]
    · simp [hf2]
    · have hx : groupish { o2 with at_list := atCleanup o2.at_list } = false := by
        simp [groupish, hig2, hf2, hsplit.2]
      rw [hx, hgst]

/-- Each step of the media processors preserves the classification, the pat
payload, the origin id, and the group character. -/
theorem mediaSplitStep_pres (o : String) (st : CMsg) :
    (mediaSplitStep o st).ctype = st.ctype ∧
    (mediaSplitStep o st).pat_info = st.pat_info ∧
    (mediaSplitStep o st).from_user_id = st.from_user_id ∧
    groupish (mediaSplitStep o st) = groupish st := by
  unfold mediaSplitStep
  dsimp only
  repeat' split
  all_goals refine ⟨rfl, rfl, rfl, ?_⟩
  all_goals simp_all [groupish]

/-- The private-chat fallback preserves the same fields. -/
theorem mediaPrivStep_pres (st : CMsg) :
    (mediaPrivStep st).ctype = st.ctype ∧
    (mediaPrivStep st).pat_info = st.pat_info ∧
    (mediaPrivStep st).from_user_id = st.from_user_id ∧
    groupish (mediaPrivStep st) = groupish st := by
  unfold mediaPrivStep
  split
  all_goals refine ⟨rfl, rfl, rfl, ?_⟩
  all_goals simp_all [groupish]

/-- The actual-user assignment preserves the same fields. -/
theorem mediaActualStep_pres (st : CMsg) :
    (mediaActualStep st).ctype = st.ctype ∧
    (mediaActualStep st).pat_info = st.pat_info ∧
    (mediaActualStep st).from_user_id = st.from_user_id ∧
    groupish (mediaActualStep st) = groupish st :=
  ⟨rfl, rfl, rfl, rfl⟩

/-- The content restore preserves the same fields. -/
theorem contentRestore_pres (o : String) (st : CMsg) :
    (contentRestore o st).ctype = st.ctype ∧
    (contentRestore o st).pat_info = st.pat_info ∧
    (contentRestore o st).from_user_id = st.from_user_id ∧
    groupish (contentRestore o st) = groupish st :=
  ⟨rfl, rfl, rfl, rfl⟩

/-- The final sender check preserves the same fields. -/
theorem senderFinalCheck_pres (st : CMsg) :
    (senderFinalCheck st).ctype = st.ctype ∧
    (senderFinalCheck st).pat_info = st.pat_info ∧
    (senderFinalCheck st).from_user_id = st.from_user_id ∧
    groupish (senderFinalCheck st) = groupish st := by
  unfold senderFinalCheck
  split
  all_goals exact ⟨rfl, rfl, rfl, rfl⟩

/-- The voice-payload block preserves the same fields. -/
theorem voiceInfoStep_pres (o : String) (st : CMsg) :
    (voiceInfoStep o st).ctype = st.ctype ∧
    (voiceInfoStep o st).pat_info = st.pat_info ∧
    (voiceInfoStep o st).from_user_id = st.from_user_id ∧
    groupish (voiceInfoStep o st) = groupish st := by
  unfold voiceInfoStep
  dsimp only
  repeat' split
  all_goals exact ⟨rfl, rfl, rfl, rfl⟩

/-- The image-payload block preserves the same fields. -/
theorem imageInfoStep_pres (st : CMsg) :
    (imageInfoStep st).ctype = st.ctype ∧
    (imageInfoStep st).pat_info = st.pat_info ∧
    (imageInfoStep st).from_user_id = st.from_user_id ∧
    groupish (imageInfoStep st) = groupish st := by
  unfold imageInfoStep
  dsimp only
  repeat' split
  all_goals exact ⟨rfl, rfl, rfl, rfl⟩

/-- The image sender block preserves the classification, the pat payload,
the origin id and the group character. -/
theorem imageSenderSplit_pres (st : CMsg) :
    (imageSenderSplit st).ctype = st.ctype ∧
    (imageSenderSplit st).pat_info = st.pat_info ∧
    (imageSenderSplit st).from_user_id = st.from_user_id ∧
    groupish (imageSenderSplit st) = groupish st := by
  unfold imageSenderSplit
  dsimp only
  repeat' split
  all_goals refine ⟨rfl, rfl, rfl, ?_⟩
  all_goals simp_all [groupish]

/-- The XML group-sender block preserves the classification, the pat
payload and the origin id, and marks the message as group. -/
theorem xmlGroupSender_pres (o : String) (st : CMsg) :
    (xmlGroupSender o st).ctype = st.ctype ∧
    (xmlGroupSender o st).pat_info = st.pat_info ∧
    (xmlGroupSender o st).from_user_id = st.from_user_id ∧
    (xmlGroupSender o st).is_group = true := by
  unfold xmlGroupSender
  dsimp only
  repeat' split
  all_goals exact ⟨rfl, rfl, rfl, rfl⟩

/-- `_process_image_message` succeeds, classifies as IMAGE, and preserves the
origin id, the pat payload and the group character. -/
theorem processImageMessage_spec (st0 : CMsg) :
    ∃ out, processImageMessage st0 = Except.ok out ∧
      out.ctype = .IMAGE ∧ out.pat_info = st0.pat_info ∧
      out.from_user_id = st0.from_user_id ∧ groupish out = groupish st0 := by
  refine ⟨_, rfl, ?_, ?_, ?_, ?_⟩ <;>
    simp only [imageInfoStep_pres, imageSenderSplit_pres] <;> rfl

/-- `_process_voice_message` succeeds, classifies as VOICE, and preserves the
origin id, the pat payload and the group character. -/
theorem processVoiceMessage_spec (st0 : CMsg) :
    ∃ out, processVoiceMessage st0 = Except.ok out ∧
      out.ctype = .VOICE ∧ out.pat_info = st0.pat_info ∧
      out.from_user_id = st0.from_user_id ∧ groupish out = groupish st0 := by
  unfold processVoiceMessage
  dsimp only
  by_cases hxs : xmlShaped st0.content = true
  · rw [if_pos hxs]
    cases hx : voiceXmlProbe st0.content with
    | ok r =>
      cases r with
      | some u =>
        simp only [hx, ok_bind, pure_bind_e]
        refine ⟨_, rfl, ?_, ?_, ?_, ?_⟩ <;>
          simp only [senderFinalCheck_pres, voiceInfoStep_pres, mediaActualStep_pres,
                     mediaPrivStep_pres, mediaSplitStep_pres, contentRestore_pres] <;> rfl
      | none =>
        simp only [hx, ok_bind, pure_bind_e]
        refine ⟨_, rfl, ?_, ?_, ?_, ?_⟩ <;>
          simp only [senderFinalCheck_pres, voiceInfoStep_pres, mediaActualStep_pres,
                     mediaPrivStep_pres, mediaSplitStep_pres, contentRestore_pres] <;> rfl
    | error e =>
      simp only [hx, ok_bind, pure_bind_e]
      refine ⟨_, rfl, ?_, ?_, ?_, ?_⟩ <;>
        simp only [senderFinalCheck_pres, voiceInfoStep_pres, mediaActualStep_pres,
                   mediaPrivStep_pres, mediaSplitStep_pres, contentRestore_pres] <;> rfl
  · rw [if_neg hxs]
    simp only [pure_bind_e]
    refine ⟨_, rfl, ?_, ?_, ?_, ?_⟩ <;>
      simp only [senderFinalCheck_pres, voiceInfoStep_pres, mediaActualStep_pres,
                 mediaPrivStep_pres, mediaSplitStep_pres, contentRestore_pres] <;> rfl

/-- `_process_video_message` succeeds, classifies as VIDEO, and preserves the
origin id, the pat payload and the group character. -/
theorem processVideoMessage_spec (st0 : CMsg) :
    ∃ out, processVideoMessage st0 = Except.ok out ∧
      out.ctype = .VIDEO ∧ out.pat_info = st0.pat_info ∧
      out.from_user_id = st0.from_user_id ∧ groupish out = groupish st0 := by
  unfold processVideoMessage
  dsimp only
  by_cases hxs : xmlShaped st0.content = true
  · rw [if_pos hxs]
    cases hx : videoXmlProbe st0.content with
    | ok r =>
      cases r with
      | some u =>
        simp only [hx, ok_bind, pure_bind_e]
        refine ⟨_, rfl, ?_, ?_, ?_, ?_⟩ <;>
          simp only [senderFinalCheck_pres, mediaActualStep_pres,
                     mediaPrivStep_pres, mediaSplitStep_pres, contentRestore_pres] <;> rfl
      | none =>
        simp only [hx, ok_bind, pure_bind_e]
        refine ⟨_, rfl, ?_, ?_, ?_, ?_⟩ <;>
          simp only [senderFinalCheck_pres, mediaActualStep_pres,
                     mediaPrivStep_pres, mediaSplitStep_pres, contentRestore_pres] <;> rfl
    | error e =>
      simp only [hx, ok_bind, pure_bind_e]
      refine ⟨_, rfl, ?_, ?_, ?_, ?_⟩ <;>
        simp only [senderFinalCheck_pres, mediaActualStep_pres,
                   mediaPrivStep_pres, mediaSplitStep_pres, contentRestore_pres] <;> rfl
  · rw [if_neg hxs]
    simp only [pure_bind_e]
    refine ⟨_, rfl, ?_, ?_, ?_, ?_⟩ <;>
      simp only [senderFinalCheck_pres, mediaActualStep_pres,
                 mediaPrivStep_pres, mediaSplitStep_pres, contentRestore_pres] <;> rfl

/-- `_process_emoji_message` succeeds, classifies as TEXT, and preserves the
origin id, the pat payload and the group character. -/
theorem processEmojiMessage_spec (st0 : CMsg) :
    ∃ out, processEmojiMessage st0 = Except.ok out ∧
      out.ctype = .TEXT ∧ out.pat_info = st0.pat_info ∧
      out.from_user_id = st0.from_user_id ∧ groupish out = groupish st0 := by
  unfold processEmojiMessage
  dsimp only
  by_cases hxs : xmlShaped st0.content = true
  · rw [if_pos hxs]
    cases hx : emojiXmlProbe st0.content with
    | ok r =>
      cases r with
      | some u =>
        simp only [hx, ok_bind, pure_bind_e]
        refine ⟨_, rfl, ?_, ?_, ?_, ?_⟩ <;>
          simp only [senderFinalCheck_pres, mediaActualStep_pres,
                     mediaPrivStep_pres, mediaSplitStep_pres, contentRestore_pres] <;> rfl
      | none =>
        simp only [hx, ok_bind, pure_bind_e]
        refine ⟨_, rfl, ?_, ?_, ?_, ?_⟩ <;>
          simp only [senderFinalCheck_pres, mediaActualStep_pres,
                     mediaPrivStep_pres, mediaSplitStep_pres, contentRestore_pres] <;> rfl
    | error e =>
      simp only [hx, ok_bind, pure_bind_e]
      refine ⟨_, rfl, ?_, ?_, ?_, ?_⟩ <;>
        simp only [senderFinalCheck_pres, mediaActualStep_pres,
                   mediaPrivStep_pres, mediaSplitStep_pres, contentRestore_pres] <;> rfl
  · rw [if_neg hxs]
    simp only [pure_bind_e]
    refine ⟨_, rfl, ?_, ?_, ?_, ?_⟩ <;>
      simp only [senderFinalCheck_pres, mediaActualStep_pres,
                 mediaPrivStep_pres, mediaSplitStep_pres, contentRestore_pres] <;> rfl

/-- `_process_xml_message` succeeds, always classifies as XML, and preserves
the origin id, the pat payload and the group character. -/
theorem processXmlMessage_spec (st0 : CMsg) :
    ∃ out, processXmlMessage st0 = Except.ok out ∧
      out.ctype = .XML ∧ out.pat_info = st0.pat_info ∧
      out.from_user_id = st0.from_user_id ∧ groupish out = groupish st0 := by
  unfold processXmlMessage
  dsimp only
  by_cases hg : groupish { st0 with ctype := CType.XML } = true
  · rw [if_pos hg]
    have hgst : groupish st0 = true := hg
    have hpres := xmlGroupSender_pres st0.content { st0 with ctype := CType.XML }
    refine ⟨_, rfl, ?_, ?_, ?_, ?_⟩
    · simp [mediaActualStep_pres, hpres.1]
    · simp [mediaActualStep_pres, hpres.2.1]
    · simp [mediaActualStep_pres, hpres.2.2.1]
    · have hx : groupish (xmlGroupSender st0.content { st0 with ctype := CType.XML }) = true := by
        simp [groupish, hpres.2.2.2]
      have hy := (mediaActualStep_pres (xmlGroupSender st0.content { st0 with ctype := CType.XML })).2.2.2
      rw [hy, hx, hgst]
  · rw [if_neg hg]
    have hgst : groupish st0 = false := by
      have := (Bool.not_eq_true (groupish { st0 with ctype := CType.XML })).mp hg
      exact this
    have hsplit := Bool.or_eq_false_iff.mp hgst
    refine ⟨_, rfl, ?_, ?_, ?_, ?_⟩
    · simp [mediaActualStep_pres]
    · simp [mediaActualStep_pres]
    · simp [mediaActualStep_pres]
    · have hy := (mediaActualStep_pres
        { st0 with ctype := CType.XML, sender_wxid := st0.from_user_id, is_group := false }).2.2.2
      rw [hy]
      simp [groupish, hgst, hsplit.1, hsplit.2]

/-- `_process_system_message` succeeds and preserves the origin id and the
group character. -/
theorem processSystemMessage_spec (st0 : CMsg) :
    ∃ out, processSystemMessage st0 = Except.ok out ∧
      out.from_user_id = st0.from_user_id ∧ groupish out = groupish st0 := by
  unfold processSystemMessage
  simp only [Bind.bind, Except.bind, pure, Except.pure]
  repeat' split
  all_goals exact ⟨_, rfl, rfl, rfl⟩

/-- One dispatch branch composed with the post-dispatch sender pass. -/
theorem dispatchPiece (st0 : CMsg) (proc : Except String CMsg) (mid : CMsg)
    (hmid : proc = .ok mid) (hf : mid.from_user_id = st0.from_user_id)
    (hg : groupish mid = groupish st0) :
    ∃ out, (proc >>= senderRepass) = .ok out ∧
      out.ctype = mid.ctype ∧ out.pat_info = mid.pat_info ∧
      (groupish st0 = true → out.sender_wxid ≠ "") ∧
      (groupish st0 = false → out.sender_wxid = st0.from_user_id) := by
  obtain ⟨out, hout, hoc, hop, _, hgs, hgf⟩ := senderRepass_spec mid
  refine ⟨out, ?_, hoc, hop, ?_, ?_⟩
  · rw [hmid, ok_bind, hout]
  · intro h
    exact hgs (by rw [hg, h])
  · intro h
    rw [hgf (by rw [hg, h]), hf]

/-- The whole normalizer succeeds on every input, and its sender output is
non-empty on the group path and the origin id on the private path. -/
theorem processMessage_spec (env : Env) (st0 : CMsg) :
    ∃ out, processMessage env st0 = Except.ok out ∧
      (groupish st0 = true → out.sender_wxid ≠ "") ∧
      (groupish st0 = false → out.sender_wxid = st0.from_user_id) := by
  have hnb := nicknameBlock_pres env st0
  have hgnb : groupish (nicknameBlock env st0) = groupish st0 := by
    simp [groupish, hnb.2.2.2.2.1, hnb.2.2.2.2.2.1]
  unfold processMessage
  dsimp only
  split
  · obtain ⟨mid, hmid, _, _, hmf, hmg⟩ := processTextMessage_spec env (nicknameBlock env st0)
    obtain ⟨out, h1, _, _, h4, h5⟩ :=
      dispatchPiece st0 _ mid hmid (hmf.trans hnb.2.2.2.2.1) (hmg.trans hgnb)
    exact ⟨out, h1, h4, h5⟩
  · split
    · obtain ⟨mid, hmid, _, _, hmf, hmg⟩ := processImageMessage_spec (nicknameBlock env st0)
      obtain ⟨out, h1, _, _, h4, h5⟩ :=
        dispatchPiece st0 _ mid hmid (hmf.trans hnb.2.2.2.2.1) (hmg.trans hgnb)
      exact ⟨out, h1, h4, h5⟩
    · split
      · obtain ⟨mid, hmid, _, _, hmf, hmg⟩ := processVoiceMessage_spec (nicknameBlock env st0)
        obtain ⟨out, h1, _, _, h4, h5⟩ :=
          dispatchPiece st0 _ mid hmid (hmf.trans hnb.2.2.2.2.1) (hmg.trans hgnb)
        exact ⟨out, h1, h4, h5⟩
      · split
        · obtain ⟨mid, hmid, _, _, hmf, hmg⟩ := processVideoMessage_spec (nicknameBlock env st0)
          obtain ⟨out, h1, _, _, h4, h5⟩ :=
            dispatchPiece st0 _ mid hmid (hmf.trans hnb.2.2.2.2.1) (hmg.trans hgnb)
          exact ⟨out, h1, h4, h5⟩
        · split
          · obtain ⟨mid, hmid, _, _, hmf, hmg⟩ := processEmojiMessage_spec (nicknameBlock env st0)
            obtain ⟨out, h1, _, _, h4, h5⟩ :=
              dispatchPiece st0 _ mid hmid (hmf.trans hnb.2.2.2.2.1) (hmg.trans hgnb)
            exact ⟨out, h1, h4, h5⟩
          · split
            · obtain ⟨mid, hmid, _, _, hmf, hmg⟩ := processXmlMessage_spec (nicknameBlock env st0)
              obtain ⟨out, h1, _, _, h4, h5⟩ :=
                dispatchPiece st0 _ mid hmid (hmf.trans hnb.2.2.2.2.1) (hmg.trans hgnb)
              exact ⟨out, h1, h4, h5⟩
            · split
              · obtain ⟨mid, hmid, hmf, hmg⟩ := processSystemMessage_spec (nicknameBlock env st0)
                obtain ⟨out, h1, _, _, h4, h5⟩ :=
                  dispatchPiece st0 _ mid hmid (hmf.trans hnb.2.2.2.2.1) (hmg.trans hgnb)
                exact ⟨out, h1, h4, h5⟩
              · obtain ⟨out, h1, _, _, h4, h5⟩ :=
                  dispatchPiece st0 _ { nicknameBlock env st0 with ctype := CType.UNKNOWN } rfl
                    hnb.2.2.2.2.1 hgnb
                exact ⟨out, h1, h4, h5⟩

/-- A system tag matches none of the earlier dispatch branches. -/
theorem sysTag_excl (t : RVal) (h : tagMatches t 10000 "10000" "System" = true) :
    tagMatches t 1 "1" "Text" = false ∧ tagMatches t 3 "3" "Image" = false ∧
    tagMatches t 34 "34" "Voice" = false ∧ tagMatches t 43 "43" "Video" = false ∧
    tagMatches t 47 "47" "Emoji" = false ∧ tagMatches t 49 "49" "App" = false := by
  cases t with
  | i m =>
    simp [tagMatches] at h ⊢
    omega
  | s v =>
    simp [tagMatches] at h
    rcases h with h | h <;> subst h <;> decide
  | l v => simp [tagMatches] at h

/-- An app tag (49) matches none of the earlier dispatch branches. -/
theorem appTag_excl (t : RVal) (h : tagMatches t 49 "49" "App" = true) :
    tagMatches t 1 "1" "Text" = false ∧ tagMatches t 3 "3" "Image" = false ∧
    tagMatches t 34 "34" "Voice" = false ∧ tagMatches t 43 "43" "Video" = false ∧
    tagMatches t 47 "47" "Emoji" = false := by
  cases t with
  | i m =>
    simp [tagMatches] at h ⊢
    omega
  | s v =>
    simp [tagMatches] at h
    rcases h with h | h <;> subst h <;> decide
  | l v => simp [tagMatches] at h

/-- The tag 10002, in either encoding, is not recognized by the dispatch. -/
theorem tag10002_unrecognized (t : RVal) (h : t = .i 10002 ∨ t = .s "10002") :
    recognizedTag t = false := by
  rcases h with h | h <;> subst h <;> decide

/-- On a system tag the normalizer runs `_process_system_message` followed by
the post-dispatch sender pass. -/
theorem processMessage_systemBranch (env : Env) (st0 out : CMsg)
    (ht : tagMatches (effMsgType st0) 10000 "10000" "System" = true)
    (hp : processMessage env st0 = .ok out) :
    ∃ mid, processSystemMessage (nicknameBlock env st0) = .ok mid ∧
      senderRepass mid = .ok out := by
  obtain ⟨h1, h2, h3, h4, h5, h6⟩ := sysTag_excl _ ht
  unfold processMessage at hp
  dsimp only at hp
  rw [h1, h2, h3, h4, h5, h6, ht] at hp
  simp only [Bool.false_eq_true, if_false, if_true] at hp
  exact (except_bind_ok _ _ _).mp hp

/-- On an app tag (49) the normalizer runs `_process_xml_message` followed by
the post-dispatch sender pass. -/
theorem processMessage_appBranch (env : Env) (st0 out : CMsg)
    (ht : tagMatches (effMsgType st0) 49 "49" "App" = true)
    (hp : processMessage env st0 = .ok out) :
    ∃ mid, processXmlMessage (nicknameBlock env st0) = .ok mid ∧
      senderRepass mid = .ok out := by
  obtain ⟨h1, h2, h3, h4, h5⟩ := appTag_excl _ ht
  unfold processMessage at hp
  dsimp only at hp
  rw [h1, h2, h3, h4, h5, ht] at hp
  simp only [Bool.false_eq_true, if_false, if_true] at hp
  exact (except_bind_ok _ _ _).mp hp

/-- On an unrecognized tag the normalizer sets UNKNOWN and runs only the
post-dispatch sender pass. -/
theorem processMessage_unknownBranch (env : Env) (st0 out : CMsg)
    (ht : recognizedTag (effMsgType st0) = false)
    (hp : processMessage env st0 = .ok out) :
    senderRepass { nicknameBlock env st0 with ctype := CType.UNKNOWN } = .ok out := by
  simp only [recognizedTag, Bool.or_eq_false_iff] at ht
  obtain ⟨⟨⟨⟨⟨⟨h1, h2⟩, h3⟩, h4⟩, h5⟩, h6⟩, h7⟩ := ht
  unfold processMessage at hp
  dsimp only at hp
  rw [h1, h2, h3, h4, h5, h6, h7] at hp
  simp only [Bool.false_eq_true, if_false] at hp
  simpa only [pure_bind_e] using hp

/-- PAT branch of `_process_system_message`: marker present, parse succeeds,
`pat` child found. -/
theorem processSystemMessage_pat (st : CMsg) (root pat : Xml)
    (hc : strContains st.content "<pat" = true)
    (hp : parseXml st.content = some root)
    (hf : root.findChild "pat" = some pat) :
    processSystemMessage st = Except.ok
      { st with ctype := .PAT,
                pat_info := some ⟨childTextOr pat "fromusername",
                                  childTextOr pat "pattedusername",
                                  childTextOr pat "patsuffix"⟩,
                sender_wxid := (childTextOr pat "fromusername").getD "",
                actual_user_id := (childTextOr pat "fromusername").getD "",
                actual_user_nickname := (childTextOr pat "fromusername").getD "" } := by
  unfold processSystemMessage etFromstring
  rw [hc, hp]
  simp only [if_true]
  rw [hf]
  rfl

/-- SYSTEM branch of `_process_system_message`: the PAT condition fails. -/
theorem processSystemMessage_nopat (st : CMsg) (hc : patCondition st = false) :
    processSystemMessage st = Except.ok (sysDefault st) := by
  unfold patCondition at hc
  unfold processSystemMessage etFromstring
  by_cases h1 : strContains st.content "<pat" = true
  · rw [h1] at hc
    simp only [Bool.true_and] at hc
    rw [h1]
    simp only [if_true]
    cases hp : parseXml st.content with
    | some root =>
      rw [hp] at hc
      dsimp only at hc
      dsimp only
      cases hf : root.findChild "pat" with
      | some pat =>
        rw [hf] at hc
        simp at hc
      | none =>
        rfl
    | none =>
      rfl
  · have h1f : strContains st.content "<pat" = false := by
      cases hv : strContains st.content "<pat"
      · rfl
      · exact absurd hv h1
    rw [h1f]
    rfl

/- ### Claim theorems -/

/-- C1: on the spec's example — a group message with tag 1 and raw content
`"wxidA:\nhello @BotName"` — the normalizer classifies TEXT, strips the
content to `"hello @BotName"`, and records the bot mention; but after the
whole of `_process_message` has run, the sender id is NOT `"wxidA"`: the
post-dispatch re-extraction pass finds no sender in the already stripped
content and overwrites the correctly extracted value with the
`未知用户_`-placeholder.  This run documents the code-bug side of the claim. -/
theorem claim_c1_example_run :
    c1_out.ctype = CType.TEXT ∧
    c1_out.content = "hello @BotName" ∧
    c1_out.at_list = ["bot_wxid"] ∧
    c1_out.sender_wxid = "未知用户_room1@chatroom" ∧
    c1_out.sender_wxid ≠ "wxidA" := by
  refine ⟨rfl, rfl, rfl, rfl, ?_⟩
  intro h
  have h2 : c1_out.sender_wxid = "未知用户_room1@chatroom" := rfl
  rw [h2] at h
  exact absurd h (by decide)

/-- C3: the normalizer always returns normally — for every channel
configuration and every raw record state, `_process_message` (with every
per-type processor it dispatches to) produces a canonical record and lets no
parse failure escape: every ElementTree parse in the source sits inside a
`try`, which the embedding mirrors, so the `Except`-typed run is always
`ok`. -/
theorem claim_c3_never_raises (env : Env) (st : CMsg) :
    ∃ out, processMessage env st = Except.ok out := by
  obtain ⟨out, h, _, _⟩ := processMessage_spec env st
  exact ⟨out, h⟩

/-- C8: mention-list normalization is idempotent — an already-normalized
list (all elements non-empty) passes through the list-valued extraction and
the final cleanup unchanged; a single empty-string element normalizes to the
empty list, and the empty list stays empty. -/
theorem claim_c8_mention_idempotent :
    (∀ l : List String, (∀ x ∈ l, x ≠ "") →
       atFromListVal l = l ∧ atCleanup (atFromListVal l) = l) ∧
    atFromListVal [""] = [] ∧ atCleanup [""] = [] ∧ atCleanup [] = [] := by
  refine ⟨?_, rfl, rfl, rfl⟩
  intro l hl
  have h1 : atFromListVal l = l := by
    unfold atFromListVal
    exact List.filter_eq_self.mpr (fun a ha => by simp [hl a ha])
  refine ⟨h1, ?_⟩
  rw [h1]
  unfold atCleanup
  by_cases he : l = []
  · subst he
    simp
  · have hne : l ≠ [""] := fun hx => (hl "" (by rw [hx]; exact List.mem_singleton_self "")) rfl
    simp [he, hne]

/-- C8 witness: the already-normalized list `["u1", "u2"]` is unchanged by
the normalization step. -/
theorem claim_c8_witness :
    atFromListVal ["u1", "u2"] = ["u1", "u2"] ∧
    atCleanup (atFromListVal ["u1", "u2"]) = ["u1", "u2"] :=
  claim_c8_mention_idempotent.1 ["u1", "u2"] (by decide)

/-- C9 counterexample: the synthesized message id is NOT a function of the
creation timestamp and content — over the very same raw event (absent id,
creation time 50, same content), two synthesis runs at current seconds 100
and 101 produce different ids, because `_check` uses `int(time.time())`, not
`cmsg.create_time`. -/
theorem claim_c9_counterexample :
    msgC9.msg_id = "" ∧ msgC9.create_time = 50 ∧
    effMsgId msgC9 100 hash0 ≠ effMsgId msgC9 101 hash0 :=
  ⟨rfl, rfl, by decide⟩

/-- C9 as amended: the synthesized id is a deterministic function of the
current wall-clock second at synthesis time and the hash of the raw mapping
— two runs with the same hash function, the same current second and the same
raw mapping agree, regardless of the creation timestamp or any other
field. -/
theorem claim_c9_amended (hashf : List (String × RVal) → Int) (now : Int)
    (st st2 : CMsg) (h1 : st.msg_id = "") (h2 : st2.msg_id = "")
    (h3 : st.msg = st2.msg) :
    effMsgId st now hashf = effMsgId st2 now hashf := by
  unfold effMsgId
  rw [h1, h2, h3]

/-- C9 witness: two raw events sharing the mapping but differing in creation
timestamp synthesize the same id at the same current second. -/
theorem claim_c9_witness :
    msgC9.create_time ≠ (msgC9b).create_time ∧
    effMsgId msgC9 100 hash0 = effMsgId msgC9b 100 hash0 :=
  ⟨by decide, claim_c9_amended hash0 100 msgC9 msgC9b rfl rfl rfl⟩

/-- C10: the `_check` wrapper processes a message exactly when its effective
id (the original one, or the synthesized one when absent) is not yet
recorded and the creation time is not more than 60 seconds older than the
current time; the id is recorded in the seen set in every case, so a
retransmission carrying the same effective id is never processed twice. -/
theorem claim_c10_check_gate (received : List String) (now : Int)
    (hashf : List (String × RVal) → Int) (st : CMsg) :
    ((checkGate received now hashf st).2 = true ↔
       (effMsgId st now hashf ∉ received ∧ ¬(st.create_time < now - 60))) ∧
    effMsgId st now hashf ∈ (checkGate received now hashf st).1 ∧
    (∀ received2 now2, effMsgId st now2 hashf = effMsgId st now hashf →
       effMsgId st now hashf ∈ received2 →
       (checkGate received2 now2 hashf st).2 = false) := by
  refine ⟨?_, ?_, ?_⟩
  · unfold checkGate
    by_cases hc : effMsgId st now hashf ∈ received
    · simp [hc]
    · by_cases ht : st.create_time < now - 60
      · simp [hc, ht]
      · simp [hc, ht]
  · unfold checkGate
    by_cases hc : effMsgId st now hashf ∈ received
    · simp [hc]
    · by_cases ht : st.create_time < now - 60
      · simp [hc, ht]
      · simp [hc, ht]
  · intro received2 now2 hid hin
    unfold checkGate
    rw [hid]
    simp [hin]

/-- C2: inside each cited processor the colon-prefix (method 1) wins over
any `fromusername` XML attribute the content may carry.  For the text
processor, whenever the `":\n"` split succeeds with a valid prefix `p`, the
extracted sender is `p` and the remaining content is the part after the
delimiter, for EVERY remainder — in particular one holding a disagreeing
`fromusername` attribute.  For the voice and video processors, a content
carrying a colon prefix is not XML-shaped, so the regex phase cannot fire,
and the split (run on a state whose sender is still unset, as built by
`WX849Message`) extracts `p` likewise. -/
theorem claim_c2_colon_priority :
    (∀ env st p r out, st.is_group = true →
       colonSplitValid st.content ":\n" = some (p, r) →
       processTextMessage env st = .ok out →
       out.sender_wxid = p ∧ out.content = r) ∧
    (∀ st p r out, st.is_group = true → st.sender_wxid = "" →
       xmlShaped st.content = false →
       splitOnce st.content ":\n" = some (p, r) →
       p ≠ "" → strContains p "<" = false →
       processVoiceMessage st = .ok out →
       out.sender_wxid = p) ∧
    (∀ st p r out, st.is_group = true → st.sender_wxid = "" →
       xmlShaped st.content = false →
       splitOnce st.content ":\n" = some (p, r) →
       p ≠ "" → strContains p "<" = false →
       processVideoMessage st = .ok out →
       out.sender_wxid = p) := by
  refine ⟨?_, ?_, ?_⟩
  · intro env st p r out hg hsplit hrun
    have hgg : groupish { st with ctype := CType.TEXT } = true := by
      simp [groupish, hg]
    have htgs := textGroupSender_m1 { st with ctype := CType.TEXT } p r hsplit
    obtain ⟨o2, h2, hs2, hco2, _, _, _, _⟩ := atListBlock_spec env
      { st with ctype := CType.TEXT, is_group := true, sender_wxid := p, content := r,
                other_user_id := st.from_user_id,
                actual_user_id := p, actual_user_nickname := p }
    have hfull : processTextMessage env st =
        Except.ok { o2 with at_list := atCleanup o2.at_list } := by
      unfold processTextMessage
      dsimp only
      rw [if_pos hgg]
      simp only [htgs, ok_bind, h2, pure_bind_e]
      rfl
    rw [hfull] at hrun
    have hoe := Except.ok.inj hrun
    rw [← hoe]
    exact ⟨hs2.trans rfl, hco2.trans rfl⟩
  · intro st p r out hg he hx hsplit hp hnl hrun
    have hsp1 : mediaSplitStep st.content { st with ctype := CType.VOICE } =
        { st with ctype := CType.VOICE, is_group := true, sender_wxid := p } :=
      mediaSplitStep_m1 st.content { st with ctype := CType.VOICE } p r he hg hsplit
    have hpriv := mediaPrivStep_keep
      { st with ctype := CType.VOICE, is_group := true, sender_wxid := p } hp
    have hfull : processVoiceMessage st = Except.ok
        (senderFinalCheck (contentRestore st.content (voiceInfoStep st.content
          (mediaActualStep { st with ctype := CType.VOICE, is_group := true, sender_wxid := p })))) := by
      unfold processVoiceMessage
      dsimp only
      rw [if_neg (by rw [hx]; exact Bool.false_ne_true)]
      simp only [pure_bind_e]
      rw [hsp1, hpriv]
      rfl
    rw [hfull] at hrun
    have hoe := Except.ok.inj hrun
    rw [← hoe]
    have hs1 : (contentRestore st.content (voiceInfoStep st.content
        (mediaActualStep { st with ctype := CType.VOICE, is_group := true, sender_wxid := p }))).sender_wxid = p := by
      show (voiceInfoStep st.content (mediaActualStep _)).sender_wxid = p
      rw [voiceInfoStep_sender]
      rfl
    rw [senderFinalCheck_keep _ (by rw [hs1]; exact hp) (by rw [hs1]; exact hnl), hs1]
  · intro st p r out hg he hx hsplit hp hnl hrun
    have hsp1 : mediaSplitStep st.content { st with ctype := CType.VIDEO } =
        { st with ctype := CType.VIDEO, is_group := true, sender_wxid := p } :=
      mediaSplitStep_m1 st.content { st with ctype := CType.VIDEO } p r he hg hsplit
    have hpriv := mediaPrivStep_keep
      { st with ctype := CType.VIDEO, is_group := true, sender_wxid := p } hp
    have hfull : processVideoMessage st = Except.ok
        (senderFinalCheck (contentRestore st.content
          (mediaActualStep { st with ctype := CType.VIDEO, is_group := true, sender_wxid := p }))) := by
      unfold processVideoMessage
      dsimp only
      rw [if_neg (by rw [hx]; exact Bool.false_ne_true)]
      simp only [pure_bind_e]
      rw [hsp1, hpriv]
      rfl
    rw [hfull] at hrun
    have hoe := Except.ok.inj hrun
    rw [← hoe]
    have hs1 : (contentRestore st.content
        (mediaActualStep { st with ctype := CType.VIDEO, is_group := true, sender_wxid := p })).sender_wxid = p := rfl
    rw [senderFinalCheck_keep _ (by rw [hs1]; exact hp) (by rw [hs1]; exact hnl), hs1]

/-- C2 witness: on the group content
`"wxidA:\n<msg fromusername=\"wxidB\"></msg>"` — a colon prefix `wxidA` with
a disagreeing `fromusername` attribute `wxidB` — each of the three processors
extracts the colon prefix `wxidA`. -/
theorem claim_c2_witness :
    c2_text_out.sender_wxid = "wxidA" ∧
    c2_text_out.content = "<msg fromusername=\"wxidB\"></msg>" ∧
    c2_voice_out.sender_wxid = "wxidA" ∧
    c2_video_out.sender_wxid = "wxidA" := by
  have h1 := claim_c2_colon_priority.1 envT msgC2 "wxidA"
    "<msg fromusername=\"wxidB\"></msg>" c2_text_out rfl rfl rfl
  have h2 := claim_c2_colon_priority.2.1 { msgC2 with msg_type := .i 34 } "wxidA"
    "<msg fromusername=\"wxidB\"></msg>" c2_voice_out rfl rfl rfl rfl
    (by decide) (by decide) rfl
  have h3 := claim_c2_colon_priority.2.2 { msgC2 with msg_type := .i 43 } "wxidA"
    "<msg fromusername=\"wxidB\"></msg>" c2_video_out rfl rfl rfl rfl
    (by decide) (by decide) rfl
  exact ⟨h1.1, h1.2, h2, h3⟩

/-- C4 counterexample: a message with type tag `"10002"` is NOT classified
as SYSTEM (nor PAT) — the dispatch recognizes only `10000`/`"10000"`/
`"System"`, so 10002 falls through to UNKNOWN. -/
theorem claim_c4_counterexample :
    effMsgType msgC4bad = .s "10002" ∧
    c4_bad_out.ctype = CType.UNKNOWN ∧
    CType.UNKNOWN ≠ CType.SYSTEM ∧ CType.UNKNOWN ≠ CType.PAT :=
  ⟨rfl, rfl, by decide, by decide⟩

/-- C4 as amended: a message whose tag is 10000 (integer or string) or
`"System"` is classified SYSTEM, unless its content contains the `<pat`
marker and parses as XML whose root has a direct `pat` child, in which case
it is classified PAT with patter/patted/suffix extracted, each defaulting to
the empty string when the corresponding sub-element is absent (see
`childTextOr`); the tag 10002, in either encoding, is classified UNKNOWN. -/
theorem claim_c4_amended :
    (∀ env st root pat out,
       tagMatches (effMsgType st) 10000 "10000" "System" = true →
       strContains st.content "<pat" = true →
       parseXml st.content = some root →
       root.findChild "pat" = some pat →
       processMessage env st = .ok out →
       out.ctype = CType.PAT ∧
         out.pat_info = some ⟨childTextOr pat "fromusername",
                              childTextOr pat "pattedusername",
                              childTextOr pat "patsuffix"⟩) ∧
    (∀ env st out,
       tagMatches (effMsgType st) 10000 "10000" "System" = true →
       patCondition st = false →
       processMessage env st = .ok out →
       out.ctype = CType.SYSTEM) ∧
    (∀ env st out,
       (effMsgType st = .i 10002 ∨ effMsgType st = .s "10002") →
       processMessage env st = .ok out →
       out.ctype = CType.UNKNOWN) := by
  refine ⟨?_, ?_, ?_⟩
  · intro env st root pat out ht hmark hparse hchild hrun
    obtain ⟨mid, hmid, hrep⟩ := processMessage_systemBranch env st out ht hrun
    have hco := (nicknameBlock_pres env st).1
    have hpat := processSystemMessage_pat (nicknameBlock env st) root pat
      (by rw [hco]; exact hmark) (by rw [hco]; exact hparse) hchild
    rw [hpat] at hmid
    have hmid2 := Except.ok.inj hmid
    obtain ⟨out2, hout2, hoc, hop, _, _, _⟩ := senderRepass_spec mid
    rw [hout2] at hrep
    have hoe := Except.ok.inj hrep
    rw [← hoe, hoc, hop, ← hmid2]
    exact ⟨rfl, rfl⟩
  · intro env st out ht hpc hrun
    obtain ⟨mid, hmid, hrep⟩ := processMessage_systemBranch env st out ht hrun
    have hpc2 : patCondition (nicknameBlock env st) = false := by
      unfold patCondition
      rw [(nicknameBlock_pres env st).1]
      exact hpc
    rw [processSystemMessage_nopat _ hpc2] at hmid
    have hmid2 := Except.ok.inj hmid
    obtain ⟨out2, hout2, hoc, _, _, _, _⟩ := senderRepass_spec mid
    rw [hout2] at hrep
    have hoe := Except.ok.inj hrep
    rw [← hoe, hoc, ← hmid2]
    rfl
  · intro env st out ht hrun
    have hu := processMessage_unknownBranch env st out (tag10002_unrecognized _ ht) hrun
    obtain ⟨out2, hout2, hoc, _, _, _, _⟩ := senderRepass_spec
      { nicknameBlock env st with ctype := CType.UNKNOWN }
    rw [hout2] at hu
    have hoe := Except.ok.inj hu
    rw [← hoe, hoc]

/-- C4 witness: a tag-10000 pat message yields PAT with the extracted
fields (suffix defaulting to the empty string), a plain tag-10000 message
yields SYSTEM, and a tag-"10002" message yields UNKNOWN. -/
theorem claim_c4_witness :
    c4_pat_out.ctype = CType.PAT ∧
    c4_pat_out.pat_info = some ⟨some "u1", some "u2", some ""⟩ ∧
    c4_sys_out.ctype = CType.SYSTEM ∧
    c4_bad_out.ctype = CType.UNKNOWN := by
  have h1 := claim_c4_amended.1 envT msgC4pat c4_root c4_pat_elem c4_pat_out
    rfl rfl rfl rfl rfl
  refine ⟨h1.1, ?_, ?_, ?_⟩
  · rw [h1.2]
    rfl
  · exact claim_c4_amended.2.1 envT msgC4sys c4_sys_out rfl rfl rfl
  · exact claim_c4_amended.2.2 envT msgC4bad c4_bad_out (Or.inr rfl) rfl

/-- C5 counterexample: a message with the unrecognized tag 99 and content
`"hello"` (which lacks the `<sysmsg` marker) is classified UNKNOWN, not
TEXT — no secondary `<sysmsg` heuristic exists in the normalizer. -/
theorem claim_c5_counterexample :
    recognizedTag (effMsgType msgC5) = false ∧
    strContains msgC5.content "<sysmsg" = false ∧
    c5_out.ctype = CType.UNKNOWN ∧
    CType.UNKNOWN ≠ CType.TEXT :=
  ⟨rfl, rfl, rfl, by decide⟩

/-- C5 as amended: every message whose effective tag matches none of the
recognized values (1/Text, 3/Image, 34/Voice, 43/Video, 47/Emoji, 49/App,
10000/System, in integer or string form) is classified UNKNOWN
unconditionally — the content is not consulted. -/
theorem claim_c5_amended (env : Env) (st : CMsg) (out : CMsg)
    (ht : recognizedTag (effMsgType st) = false)
    (hrun : processMessage env st = .ok out) :
    out.ctype = CType.UNKNOWN := by
  have hu := processMessage_unknownBranch env st out ht hrun
  obtain ⟨out2, hout2, hoc, _, _, _, _⟩ := senderRepass_spec
    { nicknameBlock env st with ctype := CType.UNKNOWN }
  rw [hout2] at hu
  have hoe := Except.ok.inj hu
  rw [← hoe, hoc]

/-- C5 witness: a group message with the unrecognized string tag `"77"` is
classified UNKNOWN. -/
theorem claim_c5_witness : c5_w_out.ctype = CType.UNKNOWN :=
  claim_c5_amended envT msgC5w c5_w_out rfl rfl

/-- C6 counterexample: a type-49 app message whose nested `<appmsg><type>`
is 57 (a quote message) is classified XML, not QUOTE — `_process_xml_message`
never inspects the nested appmsg type. -/
theorem claim_c6_counterexample :
    effMsgType msgC6 = .i 49 ∧
    childTextOr ((((parseXml msgC6.content).getD dummyXml).findChild "appmsg").getD dummyXml) "type"
      = some "57" ∧
    c6_out.ctype = CType.XML ∧
    CType.XML ≠ CType.QUOTE :=
  ⟨rfl, rfl, rfl, by decide⟩

/-- C6 as amended: every type-49 message (tag 49 in either encoding, or
`"App"`) is classified as generic XML by the normalizer — including quote
messages (nested type 57) and messages whose content does not parse — and
processing never throws. -/
theorem claim_c6_amended (env : Env) (st : CMsg) (out : CMsg)
    (ht : tagMatches (effMsgType st) 49 "49" "App" = true)
    (hrun : processMessage env st = .ok out) :
    out.ctype = CType.XML := by
  obtain ⟨mid, hmid, hrep⟩ := processMessage_appBranch env st out ht hrun
  obtain ⟨mid2, hmid2, hctype, _, _, _⟩ := processXmlMessage_spec (nicknameBlock env st)
  rw [hmid2] at hmid
  have hme := Except.ok.inj hmid
  obtain ⟨out2, hout2, hoc, _, _, _, _⟩ := senderRepass_spec mid
  rw [hout2] at hrep
  have hoe := Except.ok.inj hrep
  rw [← hoe, hoc, ← hme]
  exact hctype

/-- C6 witness: a group type-49 message with unparseable content is still
classified XML (and the run returns normally). -/
theorem claim_c6_witness : c6_w_out.ctype = CType.XML :=
  claim_c6_amended envT msgC6w c6_w_out rfl rfl

/-- C7 counterexample: after normalization of a group text message whose
only sender source is the raw field `SenderUserName` holding `"<x>"`, the
sender id is `"<x>"` — it contains the character `"<"`, refuting the claimed
structural invariant. -/
theorem claim_c7_counterexample :
    c7_out.sender_wxid = "<x>" ∧
    strContains c7_out.sender_wxid "<" = true :=
  ⟨rfl, rfl⟩

/-- C7 as amended: after `_process_message`, the sender id of a group-flagged
or `@chatroom`-suffixed message is never empty (the cascade falls back to the
`未知用户_`-placeholder derived from the origin id), and for private messages
the sender id equals the origin id; the sender id may however contain
`"<"`. -/
theorem claim_c7_amended (env : Env) (st : CMsg) (out : CMsg)
    (hrun : processMessage env st = .ok out) :
    ((st.is_group = true ∨ strEnds st.from_user_id "@chatroom" = true) →
       out.sender_wxid ≠ "") ∧
    (st.is_group = false → strEnds st.from_user_id "@chatroom" = false →
       out.sender_wxid = st.from_user_id) := by
  obtain ⟨out2, hout2, hgs, hgf⟩ := processMessage_spec env st
  rw [hout2] at hrun
  have hoe := Except.ok.inj hrun
  subst hoe
  constructor
  · intro h
    refine hgs ?_
    unfold groupish
    rcases h with h | h
    · rw [h]
      rfl
    · rw [h]
      simp
  · intro h1 h2
    refine hgf ?_
    unfold groupish
    rw [h1, h2]
    rfl

/-- C7 witness: a group message with no sender source at all ends with the
non-empty placeholder `未知用户_` + origin id. -/
theorem claim_c7_witness :
    c7_w_out.sender_wxid ≠ "" ∧
    c7_w_out.sender_wxid = "未知用户_room7@chatroom" :=
  ⟨(claim_c7_amended envT msgC7w c7_w_out rfl).1 (Or.inl rfl), rfl⟩

/-- C10 witness: a fresh recent message passes the gate, and its
retransmission (same id, already recorded) is skipped. -/
theorem claim_c10_witness :
    (checkGate [] 100 hash0 msgC10).2 = true ∧
    (checkGate ["m1"] 100 hash0 msgC10).2 = false := by
  constructor
  · exact (claim_c10_check_gate [] 100 hash0 msgC10).1.mpr ⟨by decide, by decide⟩
  · exact (claim_c10_check_gate [] 100 hash0 msgC10).2.2 ["m1"] 100 rfl (by decide)

end WX849
